import Mathlib

/-!
Shallow embedding of the rule registry, suggestion aggregation, conflict
resolution, scoring and multi-format rendering pipeline of
`advisor/rules.go` (package `advisor` of the soar SQL-review tool),
together with proofs about the claims of its specification.

Go maps are modelled as association lists (`List (String × Rule)`): the
list order models one iteration order of the map, so order-(in)dependence
of the rendering pipeline can be stated as invariance under permutation of
the list.  External collaborators (`query.Fingerprint`, `ast.Pretty`,
`common.MarkdownEscape`, `json.MarshalIndent`, the regexp engine, …) are
modelled as opaque function parameters collected in `Externals`.
-/

namespace Soar

/-- Model of the Go struct `Rule` (advisor/rules.go).  The function-valued
field `Func func(*Query4Audit) Rule` is modelled by the name of the Go
method assigned to it; `none` models a nil function reference. -/
structure Rule where
  Item : String
  Severity : String
  Summary : String
  Content : String
  Case : String
  Position : Int
  Func : Option String
deriving DecidableEq

/-- The zero value of the Go struct `Rule`: reading a missing key from a
`map[string]Rule` yields this value. -/
def Rule.zero : Rule := ⟨"", "", "", "", "", 0, none⟩

/-- The configuration values (`common.Config.*` and `common.BlackList`)
read by the code under audit, passed explicitly. -/
structure Config where
  IgnoreRules : List String
  BlackList : List String
  ExplainSQLReportType : String
  ReportType : String
  MaxTextColsCount : Int
  MaxVarcharLength : Int
  ColumnNotAllowType : List String
  AllowEngines : List String
  AllowCharsets : List String
  AllowCollates : List String
  IdxPrefix : String
  UkPrefix : String

/-- Model of the Go struct `JSONSuggest` (advisor/rules.go), the document
built by `formatJSON` before marshalling. -/
structure JSONSuggest where
  ID : String
  Fingerprint : String
  Score : Int
  Sample : String
  Explain : List Rule
  HeuristicRules : List Rule
  IndexRules : List Rule
  Tables : List String
deriving DecidableEq

/-- The external collaborators invoked by the rendering pipeline, modelled
as opaque functions: `query.Fingerprint`, `query.Id`, `ast.Pretty`,
`ast.SchemaMetaInfo`, `common.MarkdownEscape`, `common.Score`,
`pretty.Sprint` and `json.MarshalIndent` (the latter returning `none` on a
marshalling error). -/
structure Externals where
  Fingerprint : String → String
  Id : String → String
  Pretty : String → String → String
  SchemaMetaInfo : String → String → List String
  MarkdownEscape : String → String
  ScoreStr : Int → String
  PrettySprint : Rule → String
  MarshalIndent : JSONSuggest → Option String

/-- Go `strings.TrimLeft(s, string(c))` for a one-character cutset. -/
def trimLeftChar (c : Char) (s : String) : String :=
  ⟨s.data.dropWhile (· == c)⟩

/-- Go `strings.TrimRight(s, string(c))` for a one-character cutset. -/
def trimRightChar (c : Char) (s : String) : String :=
  ⟨(s.data.reverse.dropWhile (· == c)).reverse⟩

/-- Go `strings.Trim(s, string(c))` for a one-character cutset: trims the
character from both ends. -/
def trimChar (c : Char) (s : String) : String :=
  trimRightChar c (trimLeftChar c s)

/-- Decimal value of a non-empty all-digit character list, `none` otherwise. -/
def digitsToNat (l : List Char) : Option Nat :=
  match l with
  | [] => none
  | _ =>
    if l.all Char.isDigit then
      some (l.foldl (fun a c => a * 10 + (c.toNat - 48)) 0)
    else none

/-- Largest value of the 64-bit Go `int`. -/
def maxInt64 : Int := 9223372036854775807

/-- Smallest value of the 64-bit Go `int`. -/
def minInt64 : Int := -9223372036854775808

/-- Wrap-around of 64-bit Go `int` arithmetic: the mathematical result of
an operation is reduced into the signed 64-bit range `[-2^63, 2^63)`. -/
def wrap64 (x : Int) : Int :=
  (x + 9223372036854775808) % 18446744073709551616 - 9223372036854775808

/-- Go `strconv.Atoi` on a 64-bit platform: the returned value paired with
an error flag.  An optional sign followed by one or more ASCII digits
whose value fits in `int64` parses to that value with no error; a
syntactically valid number beyond the `int64` range returns the clamped
value `MaxInt64` (or `MinInt64`) together with a range error; anything
else is a syntax error with the value `0`. -/
def goAtoi (s : String) : Int × Bool :=
  match
    (match s.data with
     | [] => none
     | '+' :: rest => (digitsToNat rest).map Int.ofNat
     | '-' :: rest => (digitsToNat rest).map (fun n => -(Int.ofNat n))
     | l => (digitsToNat l).map Int.ofNat : Option Int)
  with
  | none => (0, true)
  | some v =>
      if maxInt64 < v then (maxInt64, true)
      else if v < minInt64 then (minInt64, true)
      else (v, false)

/-- Go `fmt.Sprintln(a)` for a single string operand. -/
def sprintln1 (a : String) : String := a ++ "\n"

/-- Go `fmt.Sprintln(a, b)` for two string operands: operands are separated by
a space and a newline is appended. -/
def sprintln2 (a b : String) : String := a ++ " " ++ b ++ "\n"

/-- The keys of an association-list-modelled Go map. -/
def keys (m : List (String × Rule)) : List String := m.map Prod.fst

/-- First binding of a key in the association list. -/
def lookupRule (m : List (String × Rule)) (k : String) : Option Rule :=
  match m with
  | [] => none
  | (k2, r) :: rest => if k2 = k then some r else lookupRule rest k

/-- Go map read `m[k]`: the stored value, or the zero `Rule` when absent. -/
def getRule (m : List (String × Rule)) (k : String) : Rule :=
  (lookupRule m k).getD Rule.zero

/-- Go `delete(m, k)`. -/
def eraseKey (m : List (String × Rule)) (k : String) : List (String × Rule) :=
  m.filter (fun p => p.1 != k)

/-- Go map insert `m[k] = r` (last writer wins). -/
def insertRule (m : List (String × Rule)) (k : String) (r : Rule) :
    List (String × Rule) :=
  eraseKey m k ++ [(k, r)]

/-- Lexicographic comparison of character lists, the order Go
`sort.Strings` uses (bytewise UTF-8 order agrees with code-point
order). -/
def charsLe : List Char → List Char → Bool
  | [], _ => true
  | _ :: _, [] => false
  | a :: as, b :: bs => if a = b then charsLe as bs else decide (a < b)

/-- The string order used by Go `sort.Strings`. -/
def strLe (a b : String) : Bool := charsLe a.data b.data

/-- Go `sort.Strings` (ascending lexicographic order). -/
def sortStrings (l : List String) : List String :=
  List.insertionSort (fun a b => strLe a b = true) l

/-- Go `strings.HasPrefix`, computed on the character lists (UTF-8 byte
order agrees with character order here). -/
def hasPrefixGo (p s : String) : Bool :=
  p.data.isPrefixOf s.data

/-- Model of `IsIgnoreRule` (advisor/rules.go): an item is suppressed when some
configured ignore pattern, after trimming `*` from both ends, is a prefix
of the item and is neither `"OK"` nor empty. -/
def IsIgnoreRule (cfg : Config) (item : String) : Bool :=
  cfg.IgnoreRules.any (fun ir0 =>
    let ir := trimChar '*' ir0
    hasPrefixGo ir item && ir != "OK" && ir != "")

/-- Model of `InBlackList` (advisor/rules.go).  The Go regexp engine is modelled by
the opaque parameter `compile`: `compile pat` is `some f` when the pattern
compiles, `f s` being `FindString` (the leftmost match, `""` when there is
none), and `none` when compilation fails. -/
def InBlackList (compile : String → Option (String → String))
    (blackList : List String) (sql : String) : Bool :=
  blackList.any (fun r =>
    sql == r ||
    (match compile ("(?i)" ++ r) with
     | some re => re sql != ""
     | none => false))

/-- Modelled from the spec: the function `MergeConflictHeuristicRules`,
called by `FormatSuggest`, is not part of this source file.  Per the spec
(§4.3 Conflict Resolver) it is supplied with a static side table of
(superseding, subsumed) identifier pairs and removes the verdict
of the subsumed identifier whenever the superseding identifier is also present
in the verdict set. -/
def MergeConflictHeuristicRules (table : List (String × String))
    (s : List (String × Rule)) : List (String × Rule) :=
  s.filter (fun p =>
    !(table.any (fun t => t.2 == p.1 && (keys s).contains t.1)))
set_option linter.unusedVariables false in
/-- Catalog entries OK – ARG.012 of `InitHeuristicRules`, in source order. -/
def catalogPart1 (cfg : Config) : List (String × Rule) := [
  ("OK", ⟨"OK", "L0", "OK", "OK", "OK", 0, some "RuleOK"⟩),
  ("ALI.001", ⟨"ALI.001", "L0", "It is recommended to use the AS keyword to explicitly declare an alias", "In column or table aliases (such as \"tbl AS alias\"), explicit use of the AS keyword is easier to understand than implicit aliases (such as \"tbl alias\"). ", "select name from tbl t1 where id <1000", 0, some "RuleImplicitAlias"⟩),
  ("ALI.002", ⟨"ALI.002", "L8", "It is not recommended to set an alias for the column wildcard character\x27*\x27", "Example: \"SELECT tbl.* col1, col2\" The above SQL sets aliases for the column wildcards. Such SQL may have logic errors. You might be looking for col1, but instead of it, the last column of tbl is renamed. ", "select tbl.* as c1,c2,c3 from tbl where id <1000", 0, some "RuleStarAlias"⟩),
  ("ALI.003", ⟨"ALI.003", "L1", "The alias should not be the same as the name of the table or column", "The alias of the table or column is the same as its real name. Such an alias will make the query more difficult to distinguish. ", "select name from tbl as tbl where id <1000", 0, some "RuleSameAlias"⟩),
  ("ALT.001", ⟨"ALT.001", "L4", "Modifying the default character set of the table will not change the character set of each field of the table", "Many beginners will mistake ALTER TABLE tbl_name [DEFAULT] CHARACTER SET\x27UTF8\x27 to modify the character set of all fields, but in fact it will only affect the subsequent newly added fields and will not change the characters of the existing fields in the table set. If you want to modify the character set of all fields in the entire table, it is recommended to use ALTER TABLE tbl_name CONVERT TO CHARACTER SET charset_name;", "ALTER TABLE tbl_name CONVERT TO CHARACTER SET charset_name;", 0, some "RuleAlterCharset"⟩),
  ("ALT.002", ⟨"ALT.002", "L2", "Multiple ALTER request suggestions for the same table are combined into one", "Each table structure change will have an impact on online services, even if it is possible to adjust through online tools, please try to reduce the number of operations by merging ALTER requests. ", "ALTER TABLE tbl ADD COLUMN col int, ADD INDEX idx_col (\x60col\x60);", 0, some "RuleOK"⟩),
  ("ALT.003", ⟨"ALT.003", "L0", "Delete is listed as a high-risk operation. Please check whether the business logic is still dependent before the operation.", "If the business logic dependency is not completely eliminated, after the column is deleted, the data may not be written or the deleted column data cannot be queried, which may cause the program to be abnormal. In this case, even if the backup data is rolled back, the data requested by the user will be lost. ", "ALTER TABLE tbl DROP COLUMN col;", 0, some "RuleAlterDropColumn"⟩),
  ("ALT.004", ⟨"ALT.004", "L0", "Deleting primary keys and foreign keys is a high-risk operation, please confirm the impact with DBA before operation", "Primary key and foreign key are two important constraints in relational databases. Deleting existing constraints will break the existing business logic. Before operating, please confirm the impact with the DBA and think twice. ", "ALTER TABLE tbl DROP PRIMARY KEY;", 0, some "RuleAlterDropKey"⟩),
  ("ARG.001", ⟨"ARG.001", "L4", "It is not recommended to use the preceding wildcard search", "For example, \"%foo\", if the query parameter has a wildcard in the preceding term, the existing index cannot be used. ", "select c1,c2,c3 from tbl where name like\x27%foo\x27", 0, some "RulePrefixLike"⟩),
  ("ARG.002", ⟨"ARG.002", "L1", "LIKE query without wildcards", "LIKE query that does not contain wildcards may have a logic error, because it is logically the same as an equivalent query. ", "select c1,c2,c3 from tbl where name like\x27foo\x27", 0, some "RuleEqualLike"⟩),
  ("ARG.003", ⟨"ARG.003", "L4", "The parameter comparison contains implicit conversion, and the index cannot be used", "Implicit type conversion has the risk of not hitting the index. In the case of high concurrency and large data volume, the consequences of not hitting the index are very serious.", "SELECT * FROM sakila.film WHERE length >= \x2760\x27;", 0, some "RuleOK"⟩),
  ("ARG.004", ⟨"ARG.004", "L4", "IN (NULL)/NOT IN (NULL) is never true", "The correct way is col IN (\x27val1\x27,\x27val2\x27,\x27val3\x27) OR col IS NULL", "SELECT * FROM tb WHERE col IN (NULL);", 0, some "RuleIn"⟩),
  ("ARG.005", ⟨"ARG.005", "L1", "IN should be used with caution, too many elements will cause a full table scan", "Such as: select id from t where num in(1,2,3) For continuous values, don\x27t use IN if you can use BETWEEN: select id from t where num between 1 and 3. And when the IN value is too much, MySQL may also enter a full table scan, causing a sharp drop in performance. ", "select id from t where num in(1,2,3)", 0, some "RuleIn"⟩),
  ("ARG.006", ⟨"ARG.006", "L1", "Try to avoid the NULL value judgment of the field in the WHERE clause", "Using IS NULL or IS NOT NULL may cause the engine to give up using the index and perform a full table scan, such as: select id from t where num is null; you can set a default value of 0 on num to ensure that the num column in the table is not NULL Value, and then query like this: select id from t where num=0;", "select id from t where num is null", 0, some "RuleIsNullIsNotNull"⟩),
  ("ARG.007", ⟨"ARG.007", "L3", "Avoid using pattern matching", "Performance is the biggest disadvantage of using pattern matching operators. Another problem with using LIKE or regular expressions for pattern matching is that it may return unexpected results. The best solution is to use a special search engine technology to replace SQL, such as Apache Lucene. Another alternative is to save the results to reduce repeated search overhead. If you must use SQL, please consider using third-party extensions like FULLTEXT indexes in MySQL. But more broadly, you don\x27t necessarily have to use SQL to solve all problems. ", "select c_id,c2,c3 from tbl where c2 like\x27test%\x27", 0, some "RulePatternMatchingUsage"⟩),
  ("ARG.008", ⟨"ARG.008", "L1", "Please try to use IN predicate when OR query index column", "IN-list predicate can be used for index search, and the optimizer can sort the IN-list to match the sorting sequence of the index, so as to obtain a more effective search. Please note that the IN-list must only contain constants, or keep constant values ​​during the execution of the query block, such as external references. ", "SELECT c1,c2,c3 FROM tbl WHERE c1 = 14 OR c1 = 17", 0, some "RuleORUsage"⟩),
  ("ARG.009", ⟨"ARG.009", "L1", "The string in quotation marks contains spaces at the beginning or end", "If there are spaces before and after the VARCHAR column, it may cause logic problems. For example, in MySQL 5.5,\x27a\x27 and\x27a\x27 may be considered the same value in the query. ", "SELECT\x27abc\x27", 0, some "RuleSpaceWithQuote"⟩),
  ("ARG.010", ⟨"ARG.010", "L1", "Do not use hints, such as: sql_no_cache, force index, ignore key, straight join, etc.", "hint is used to force SQL to execute according to a certain execution plan, but as the amount of data changes, we cannot guarantee that our original prediction is correct. ", "SELECT * FROM t1 USE INDEX (i1) ORDER BY a;", 0, some "RuleHint"⟩),
  ("ARG.011", ⟨"ARG.011", "L3", "Don\x27t use negative query, such as: NOT IN/NOT LIKE", "Please try not to use negative queries, which will cause a full table scan and have a greater impact on query performance. ", "select id from t where num not in(1,2,3);", 0, some "RuleNot"⟩),
  ("ARG.012", ⟨"ARG.012", "L2", "Too much data for one-time INSERT/REPLACE", "A single INSERT/REPLACE statement has poor performance for inserting large amounts of data in batches, and may even cause synchronization delays from the database. In order to improve performance and reduce the impact of batch write data on the synchronization delay of the slave database, it is recommended to insert in batches. .", "INSERT INTO tb (a) VALUES (1), (2)", 0, some "RuleInsertValues"⟩)
]

set_option linter.unusedVariables false in
/-- Catalog entries ARG.013 – COL.002 of `InitHeuristicRules`, in source order. -/
def catalogPart2 (cfg : Config) : List (String × Rule) := [
  ("ARG.013", ⟨"ARG.013", "L0", "Chinese full-width quotation marks are used in DDL statements", "Chinese full-width quotation marks \"\" or ‘’ are used in the DDL statement. This may be a writing error. Please confirm whether it meets expectations.", "CREATE TABLE tb (a varchar(10) default\x27“”\x27", 0, some "RuleFullWidthQuote"⟩),
  ("ARG.014", ⟨"ARG.014", "L4", "There are column names in the IN condition, which may lead to the expansion of the data matching range", "Such as: delete from t where id in(1, 2, id) may cause the entire table data to be deleted by mistake. Please carefully check the correctness of the IN conditions. ", "select id from t where id in(1, 2, id)", 0, some "RuleIn"⟩),
  ("CLA.001", ⟨"CLA.001", "L4", "The outermost SELECT does not specify the WHERE condition", "The SELECT statement has no WHERE clause, and may check more rows than expected (full table scan). If precision is not required for SELECT COUNT(*) type requests, it is recommended to use SHOW TABLE STATUS or EXPLAIN instead. ", "select id from tbl", 0, some "RuleNoWhere"⟩),
  ("CLA.002", ⟨"CLA.002", "L3", "ORDER BY RAND() is not recommended", "ORDER BY RAND() is a very inefficient method of retrieving random rows from the result set, because it sorts the entire result and discards most of its data. ", "select name from tbl where id <1000 order by rand(number)", 0, some "RuleOrderByRand"⟩),
  ("CLA.003", ⟨"CLA.003", "L2", "It is not recommended to use LIMIT query with OFFSET", "The complexity of using LIMIT and OFFSET to page the result set is O(n^2), and it will cause performance problems as the data increases. Using \"bookmark\" scanning method to achieve higher efficiency of paging. ", "select c1,c2 from tbl where name=xx order by number limit 1 offset 20", 0, some "RuleOffsetLimit"⟩),
  ("CLA.004", ⟨"CLA.004", "L2", "It is not recommended to group by constants", "GROUP BY 1 means group by the first column. If you use numbers in the GROUP BY clause instead of expressions or column names, it may cause problems when the order of the query columns is changed. ", "select col1,col2 from tbl group by 1", 0, some "RuleGroupByConst"⟩),
  ("CLA.005", ⟨"CLA.005", "L2", "ORDER BY constant column has no meaning", "There may be an error in SQL logic; at most it is just a useless operation and will not change the query result. ", "select id from test where id=1 order by id", 0, some "RuleOrderByConst"⟩),
  ("CLA.006", ⟨"CLA.006", "L4", "Group BY or ORDER BY in different tables", "This will force the use of temporary tables and filesort, which may cause huge performance hazards, and may consume a lot of memory and temporary space on the disk. ", "select tb1.col, tb2.col from tb1, tb2 where id=1 group by tb1.col, tb2.col", 0, some "RuleDiffGroupByOrderBy"⟩),
  ("CLA.007", ⟨"CLA.007", "L2", "ORDER BY statement cannot use indexes for multiple different conditions and sorts in different directions", "All expressions in the ORDER BY clause must be sorted in a uniform ASC or DESC direction in order to take advantage of the index. ", "select c1,c2,c3 from t1 where c1=\x27foo\x27 order by c2 desc, c3 asc", 0, some "RuleMixOrderBy"⟩),
  ("CLA.008", ⟨"CLA.008", "L2", "Please add ORDER BY condition for GROUP BY display", "By default, MySQL will sort\x27GROUP BY col1, col2, ...\x27 requests in the following order:\x27ORDER BY col1, col2, ...\x27. If the GROUP BY statement does not specify the ORDER BY condition, it will cause unnecessary sorting. If sorting is not required, it is recommended to add\x27ORDER BY NULL\x27. ", "select c1,c2,c3 from t1 where c1=\x27foo\x27 group by c2", 0, some "RuleExplicitOrderBy"⟩),
  ("CLA.009", ⟨"CLA.009", "L2", "The condition of ORDER BY is an expression", "When the ORDER BY condition is an expression or a function, a temporary table will be used. If the WHERE or WHERE condition is not specified, the performance will be poor if the result set returned is large. ", "select description from film where title =\x27ACADEMY DINOSAUR\x27 order by length-language_id;", 0, some "RuleOrderByExpr"⟩),
  ("CLA.010", ⟨"CLA.010", "L2", "The condition of GROUP BY is an expression", "When the GROUP BY condition is an expression or a function, a temporary table will be used. If the WHERE or WHERE condition is not specified and the result set returned is large, the performance will be poor. ", "select description from film where title =\x27ACADEMY DINOSAUR\x27 GROUP BY length-language_id;", 0, some "RuleGroupByExpr"⟩),
  ("CLA.011", ⟨"CLA.011", "L1", "It is recommended to add a comment to the table", "Adding comments to the table can make the meaning of the table more clear, which will bring great convenience to future maintenance. ", "CREATE TABLE \x60test1\x60 (\x60ID\x60 bigint(20) NOT NULL AUTO_INCREMENT,\x60c1\x60 varchar(128) DEFAULT NULL,PRIMARY KEY (\x60ID\x60)) ENGINE=InnoDB DEFAULT CHARSET=utf8", 0, some "RuleTblCommentCheck"⟩),
  ("CLA.012", ⟨"CLA.012", "L2", "Decompose complex bound-footed queries into several simple queries", "SQL is a very expressive language, you can accomplish many things in a single SQL query or a single statement. But this does not mean that you must use only one line of code, or that it is a good idea to use one line of code to get every task. A common consequence of obtaining all results with one query is to get a Cartesian product. This happens when there are no conditions between the two tables in the query to restrict their relationship. There is no corresponding restriction and directly use two tables for join query, you will get a combination of each row in the first table and each row in the second table. Each such combination will become a row in the result set, and eventually you will get a result set with a large number of rows. It is important to consider that these queries are difficult to write, difficult to modify, and difficult to debug. The increasing number of database query requests should be expected. Managers want more complex reports and add more fields to the user interface. If your design is complex and a single query, it will be time-consuming and laborious to expand them. For you or the project, time spent on these things is not worth it. Break the complex spaghetti query into a few simple queries. When you split a complex SQL query, the result may be many similar queries, which may differ only in data types. Writing all these queries is very tedious, so it is best to have a program that automatically generates these codes. SQL code generation is a good application. Although SQL supports solving complex problems with one line of code, don\x27t do unrealistic things. ", "This is a very long and very long SQL, the case is omitted.", 0, some "RuleSpaghettiQueryAlert"⟩),
  ("CLA.013", ⟨"CLA.013", "L3", "The HAVING clause is not recommended", "Rewrite the HAVING clause of the query as the query condition in the WHERE, and the index can be used during query processing. ", "SELECT s.c_id,count(s.c_id) FROM s where c = test GROUP BY s.c_id HAVING s.c_id <> \x271660\x27 AND s.c_id <> \x272\x27 order by s.c_id", 0, some "RuleHavingClause"⟩),
  ("CLA.014", ⟨"CLA.014", "L2", "It is recommended to use TRUNCATE instead of DELETE when deleting the entire table", "It is recommended to use TRUNCATE instead of DELETE when deleting the entire table", "delete from tbl", 0, some "RuleNoWhere"⟩),
  ("CLA.015", ⟨"CLA.015", "L4", "UPDATE does not specify the WHERE condition", "UPDATE does not specify the WHERE condition is generally fatal, please think twice", "update tbl set col=1", 0, some "RuleNoWhere"⟩),
  ("CLA.016", ⟨"CLA.016", "L2", "Don\x27t UPDATE the primary key", "The primary key is the unique identifier of the record in the data table. It is not recommended to update the primary key column frequently. This will affect the metadata statistics and affect the normal query. ", "update tbl set col=1", 0, some "RuleOK"⟩),
  ("COL.001", ⟨"COL.001", "L1", "It is not recommended to use SELECT * type query", "When the table structure changes, using the * wildcard to select all columns will cause the meaning and behavior of the query to change, which may cause the query to return more data. ", "select * from tbl where id=1", 0, some "RuleSelectStar"⟩),
  ("COL.002", ⟨"COL.002", "L2", "INSERT/REPLACE does not specify the column name", "When the table structure changes, if the INSERT or REPLACE request does not explicitly specify the column name, the result of the request will be different from what you expected; it is recommended to use \"INSERT INTO tbl(col1, col2)VALUES ...\" instead. ", "insert into tbl values(1,\x27name\x27)", 0, some "RuleInsertColDef"⟩)
]

set_option linter.unusedVariables false in
/-- Catalog entries COL.003 – DIS.003 of `InitHeuristicRules`, in source order. -/
def catalogPart3 (cfg : Config) : List (String × Rule) := [
  ("COL.003", ⟨"COL.003", "L2", "It is recommended to modify the auto-increment ID to an unsigned type", "It is recommended to modify the auto-increment ID to an unsigned type", "create table test(\x60id\x60 int(11) NOT NULL AUTO_INCREMENT)", 0, some "RuleAutoIncUnsigned"⟩),
  ("COL.004", ⟨"COL.004", "L1", "Please add a default value for the column", "Please add a default value for the column, if it is an ALTER operation, please don\x27t forget to write the default value of the original field. The field has no default value, and the table structure cannot be changed online when the table is large. ", "CREATE TABLE tbl (col int) ENGINE=InnoDB;", 0, some "RuleAddDefaultValue"⟩),
  ("COL.005", ⟨"COL.005", "L1", "The column is not commented", "It is recommended to add a comment to each column in the table to clarify the meaning and function of each column in the table. ", "CREATE TABLE tbl (col int) ENGINE=InnoDB;", 0, some "RuleColCommentCheck"⟩),
  ("COL.006", ⟨"COL.006", "L3", "The table contains too many columns", "The table contains too many columns", "CREATE TABLE tbl (cols ....);", 0, some "RuleTooManyFields"⟩),
  ("COL.007", ⟨"COL.007", "L3", "The table contains too many text/blob columns", "The table contains more than " ++ toString cfg.MaxTextColsCount ++ " text/blob columns", "CREATE TABLE tbl (cols ....);", 0, some "RuleTooManyFields"⟩),
  ("COL.008", ⟨"COL.008", "L1", "You can use VARCHAR instead of CHAR, VARBINARY instead of BINARY", "The storage space is small for the first variable length field, which can save storage space. Secondly, for queries, the search efficiency in a relatively small field is obviously higher. ", "create table t1(id int,name char(20),last_time date)", 0, some "RuleVarcharVSChar"⟩),
  ("COL.009", ⟨"COL.009", "L2", "It is recommended to use precise data types", "Actually, any design that uses FLOAT, REAL or DOUBLE PRECISION data types may be an anti-pattern. The value range of floating point numbers used by most applications does not need to reach the maximum/minimum range defined by the IEEE 754 standard. When calculating the total, the accumulated impact of inexact floating-point numbers is serious. Use the NUMERIC or DECIMAL type in SQL to replace FLOAT and similar data types for fixed-precision decimal storage. These data types store data exactly according to the precision you specified when you defined this column. Do not use floating-point numbers as much as possible. ", "CREATE TABLE tab2 (p_id BIGINT UNSIGNED NOT NULL,a_id BIGINT UNSIGNED NOT NULL,hours float not null,PRIMARY KEY (p_id, a_id))", 0, some "RuleImpreciseDataType"⟩),
  ("COL.010", ⟨"COL.010", "L2", "It is not recommended to use ENUM/BIT/SET data type", "ENUM defines the type of value in the column. When using a string to represent the value in ENUM, the data actually stored in the column is the ordinal number of these values ​​at the time of definition. Therefore, the data in this column is byte-aligned. When you perform a sorting query, the results are sorted according to the actual stored ordinal value, not the alphabetical order of the string value. This may not be what you want. There is no syntax for adding or deleting a value from an ENUM or check constraint; you can only redefine this column with a new set. If you plan to discard an option, you may be annoyed by historical data. As a strategy, changing metadata—that is, changing the definition of tables and columns—should be uncommon, and pay attention to testing and quality assurance. There is a better solution to constrain the optional values ​​in a column: create a check table, each row contains a candidate value that is allowed in the column; then declare a foreign key constraint on the old table that references the new table. ", "create table tab1(status ENUM(\x27new\x27,\x27in progress\x27,\x27fixed\x27))", 0, some "RuleValuesInDefinition"⟩),
  ("COL.011", ⟨"COL.011", "L0", "NULL is used when a unique constraint is required, and NOT NULL is used only when the column cannot have missing values", "NULL and 0 are different, 10 multiplied by NULL or NULL. NULL is not the same as an empty string. The result of combining a string with NULL in standard SQL is still NULL. NULL and FALSE are also different. If NULL is involved in the three Boolean operations of AND, OR, and NOT, many people are confused by the result. When you declare a column as NOT NULL, it means that every value in the column must exist and be meaningful. Use NULL to represent a null value that does not exist in any type. When you declare a column as NOT NULL, it means that every value in the column must exist and be meaningful. ", "select c1,c2,c3 from tbl where c4 is null or c4 <> 1", 0, some "RuleNullUsage"⟩),
  ("COL.012", ⟨"COL.012", "L5", "TEXT, BLOB and JSON type fields are not recommended to be set to NOT NULL", "TEXT, BLOB, and JSON type fields cannot specify non-NULL default values. If the NOT NULL restriction is added, writing data without specifying a value for the field may cause writing failure. ", "CREATE TABLE \x60tb\x60(\x60c\x60 longblob NOT NULL);", 0, some "RuleBLOBNotNull"⟩),
  ("COL.013", ⟨"COL.013", "L4", "TIMESTAMP type default value check exception", "TIMESTAMP type recommends setting the default value, and it is not recommended to use 0 or 0000-00-00 00:00:00 as the default value. Consider using 1970-08-02 01:01:01", "CREATE TABLE tbl( \x60id\x60 bigint not null, \x60create_time\x60 timestamp);", 0, some "RuleTimestampDefault"⟩),
  ("COL.014", ⟨"COL.014", "L5", "A character set is specified for the column", "It is recommended that the column and the table use the same character set, do not specify the character set of the column separately. ", "CREATE TABLE \x60tb2\x60 (\x60id\x60 int(11) DEFAULT NULL, \x60col\x60 char(10) CHARACTER SET utf8 DEFAULT NULL)", 0, some "RuleColumnWithCharset"⟩),
  ("COL.015", ⟨"COL.015", "L4", "TEXT, BLOB and JSON type fields cannot be specified with non-NULL default values", "TEXT, BLOB and JSON type fields in the MySQL database cannot be specified with non-NULL default values. The maximum length of TEXT is 2^16-1 characters, the maximum length of MEDIUMTEXT is 2^32-1 characters, and the maximum length of LONGTEXT is 2^64-1 characters. ", "CREATE TABLE \x60tbl\x60 (\x60c\x60 blob DEFAULT NULL);", 0, some "RuleBlobDefaultValue"⟩),
  ("COL.016", ⟨"COL.016", "L1", "Integer definition is recommended to use INT(10) or BIGINT(20)", "INT(M) In the integer data type, M represents the maximum display width. In INT(M), the value of M has nothing to do with how much storage space INT(M) occupies. INT(3), INT(4), INT(8) all occupy 4 bytes of storage space on the disk. In higher versions of MySQL, it is no longer recommended to set the integer display width. ", "CREATE TABLE tab (a INT(1));", 0, some "RuleIntPrecision"⟩),
  ("COL.017", ⟨"COL.017", "L2", "VARCHAR definition length is too long", "varchar is a variable-length string, storage space is not allocated in advance, and the length should not exceed " ++ toString cfg.MaxVarcharLength ++ ". If the storage length is too long, MySQL will define the field type as text, and create a separate table with the primary key to correspond , To avoid affecting the index efficiency of other fields.", "CREATE TABLE tab (a varchar(3500));", 0, some "RuleVarcharLength"⟩),
  ("COL.018", ⟨"COL.018", "L9", "A field type that is not recommended is used in the table building statement", "The following field types are not recommended:" ++ String.intercalate ", " cfg.ColumnNotAllowType, "CREATE TABLE tab (a BOOLEAN);", 0, some "RuleColumnNotAllowType"⟩),
  ("COL.019", ⟨"COL.019", "L1", "It is not recommended to use time data types with accuracy below the second level", "The storage space consumption brought by the use of high-precision time data types is relatively large; MySQL can only support time data types accurate to microseconds above 5.6.4, and version compatibility issues need to be considered when using it.", "CREATE TABLE t1 (t TIME(3), dt DATETIME(6));", 0, some "RuleTimePrecision"⟩),
  ("DIS.001", ⟨"DIS.001", "L1", "Eliminate unnecessary DISTINCT conditions", "Too many DISTINCT conditions are a symptom of complex footwear queries. Consider breaking down complex queries into many simple queries and reducing the number of DISTINCT conditions. If the primary key column is part of the result set of the column, the DISTINCT condition may have no effect. ", "SELECT DISTINCT c.c_id,count(DISTINCT c.c_name),count(DISTINCT c.c_e),count(DISTINCT c.c_n),count(DISTINCT c.c_me),c.c_d FROM (select distinct id, name from B) as e WHERE e.country_id = c.country_id", 0, some "RuleDistinctUsage"⟩),
  ("DIS.002", ⟨"DIS.002", "L3", "COUNT(DISTINCT) when there are multiple columns, the result may be different from what you expected", "COUNT(DISTINCT col) Calculate the number of unique rows in this column except NULL. Note that COUNT(DISTINCT col, col2) If one of the columns is all NULL, then even if the other column has a different value, it will return 0. ", "SELECT COUNT(DISTINCT col, col2) FROM tbl;", 0, some "RuleCountDistinctMultiCol"⟩),
  ("DIS.003", ⟨"DIS.003", "L3", "DISTINCT * has no meaning for tables with primary keys", "When the table already has a primary key, the output result of DISTINCT for all columns is the same as the result of no DISTINCT operation, please don\x27t superfluous. ", "SELECT DISTINCT * FROM film;", 0, some "RuleDistinctStar"⟩)
]

set_option linter.unusedVariables false in
/-- Catalog entries FUN.001 – KEY.002 of `InitHeuristicRules`, in source order. -/
def catalogPart4 (cfg : Config) : List (String × Rule) := [
  ("FUN.001", ⟨"FUN.001", "L2", "Avoid using functions or other operators in WHERE conditions", "Although the use of functions in SQL can simplify many complex queries, queries that use functions cannot use the indexes that have been established in the table. The query will be a full table scan and the performance will be poor. It is usually recommended to write the column name on the left side of the comparison operator, and put the query filter condition on the right side of the comparison operator. It is also not recommended to write extra parentheses on both sides of the query and comparison conditions, which will cause greater confusion in reading. ", "select id from t where substring(name,1,3)=\x27abc\x27", 0, some "RuleCompareWithFunction"⟩),
  ("FUN.002", ⟨"FUN.002", "L1", "When WHERE condition or non-MyISAM engine is specified, COUNT(*) operation performance is not good", "The function of COUNT(*) is to count the number of table rows, and the function of COUNT(COL) is to count the number of non-NULL rows in the specified column. MyISAM table is specially optimized for COUNT(*) to count the number of rows in the whole table, which is usually very fast. But for non-MyISAM tables or certain WHERE conditions are specified, the COUNT(*) operation needs to scan a large number of rows to obtain accurate results, and the performance is therefore not good. Sometimes certain business scenarios do not require a completely accurate COUNT value, and an approximate value can be used instead. The number of rows estimated by the optimizer from EXPLAIN is a good approximation. Executing EXPLAIN does not need to actually execute the query, so the cost is very low. ", "SELECT c3, COUNT(*) AS accounts FROM tab where c2 <10000 GROUP BY c3 ORDER BY num", 0, some "RuleCountStar"⟩),
  ("FUN.003", ⟨"FUN.003", "L3", "Used string concatenation merged into nullable columns", "In some query requests, you need to force a column or expression to return a non-NULL value, so that the query logic becomes simpler, but you don\x27t want to save this value. You can use the COALESCE() function to construct a concatenated expression, so that even a null column does not make the entire expression NULL. ", "select c1 || coalesce(\x27 \x27|| c2 ||\x27\x27, \x27\x27) || c3 as c from tbl", 0, some "RuleStringConcatenation"⟩),
  ("FUN.004", ⟨"FUN.004", "L4", "It is not recommended to use the SYSDATE() function", "SYSDATE() function may cause inconsistent master and slave data, please use NOW() function instead of SYSDATE(). ", "SELECT SYSDATE();", 0, some "RuleSysdate"⟩),
  ("FUN.005", ⟨"FUN.005", "L1", "It is not recommended to use COUNT(col) or COUNT(constant)", "Don\x27t use COUNT(col) or COUNT(constant) instead of COUNT(*), COUNT(*) is the standard method of counting the number of rows defined by SQL92. It has nothing to do with data, and has nothing to do with NULL and non-NULL. ", "SELECT COUNT(1) FROM tbl;", 0, some "RuleCountConst"⟩),
  ("FUN.006", ⟨"FUN.006", "L1", "Pay attention to NPE issues when using SUM(COL)", "When the values ​​of a certain column are all NULL, the return result of COUNT(COL) is 0, but the return result of SUM(COL) is NULL, so you need to pay attention to the NPE problem when using SUM(). The following methods can be used to avoid the NPE problem of SUM: SELECT IF(ISNULL(SUM(COL)), 0, SUM(COL)) FROM tbl", "SELECT SUM(COL) FROM tbl;", 0, some "RuleSumNPE"⟩),
  ("FUN.007", ⟨"FUN.007", "L1", "The use of triggers is not recommended", "There is no feedback and log for the execution of the trigger, which hides the actual execution steps. When there is a problem with the database, the specific execution of the trigger cannot be analyzed through the slow log, and the problem is not easy to find. In MySQL, triggers cannot be temporarily closed or opened. In scenarios such as data migration or data recovery, you need to drop triggers temporarily, which may affect the production environment. ", "CREATE TRIGGER t1 AFTER INSERT ON work FOR EACH ROW INSERT INTO time VALUES(NOW());", 0, some "RuleForbiddenTrigger"⟩),
  ("FUN.008", ⟨"FUN.008", "L1", "It is not recommended to use stored procedures", "The stored procedure has no version control, and it is difficult to achieve business unawareness with the upgrade of the stored procedure in conjunction with the business. Storage procedures also have problems in expansion and transplantation. ", "CREATE PROCEDURE simpleproc (OUT param1 INT);", 0, some "RuleForbiddenProcedure"⟩),
  ("FUN.009", ⟨"FUN.009", "L1", "It is not recommended to use custom functions", "It is not recommended to use custom functions", "CREATE FUNCTION hello (s CHAR(20));", 0, some "RuleForbiddenFunction"⟩),
  ("GRP.001", ⟨"GRP.001", "L2", "It is not recommended to use GROUP BY for equivalent query columns", "The columns in GROUP BY used the equivalent query in the previous WHERE condition, so it doesn\x27t make much sense to perform GROUP BY on such columns. ", "select film_id, title from film where release_year=\x272006\x27 group by release_year", 0, some "RuleOK"⟩),
  ("JOI.001", ⟨"JOI.001", "L2", "JOIN statement mixes comma and ANSI mode", "Mixed comma and ANSI JOIN when joining tables are not easy for humans to understand, and different versions of MySQL have different table join behaviors and priorities. Errors may be introduced when the MySQL version changes. ", "select c1,c2,c3 from t1,t2 join t3 on t1.c1=t2.c1,t1.c3=t3,c1 where id>1000", 0, some "RuleCommaAnsiJoin"⟩),
  ("JOI.002", ⟨"JOI.002", "L4", "The same table is connected twice", "The same table appears at least twice in the FROM clause, which can be simplified to a single access to the table. ", "select tb1.col from (tb1, tb2) join tb2 on tb1.id=tb.id where tb1.id=1", 0, some "RuleDupJoin"⟩),
  ("JOI.003", ⟨"JOI.003", "L4", "OUTER JOIN is invalid", "Due to the wrong WHERE condition, no data is returned from the external table of OUTER JOIN, which will implicitly convert the query to INNER JOIN. Such as: select c from L left join R using(c) where L.a=5 and R.b=10. This kind of SQL logic may have errors or programmers may misunderstand how OUTER JOIN works, because LEFT/RIGHT JOIN is the abbreviation of LEFT/RIGHT OUTER JOIN. ", "select c1,c2,c3 from t1 left outer join t2 using(c1) where t1.c2=2 and t2.c3=4", 0, some "RuleOK"⟩),
  ("JOI.004", ⟨"JOI.004", "L4", "It is not recommended to use exclusive JOIN", "LEFT OUTER JOIN statement with WHERE clause only in the right table is NULL, it may be the wrong column in the WHERE clause, such as: \"... FROM l LEFT OUTER JOIN r ON ll = rr WHERE rz IS NULL\", the correct logic for this query may be WHERE rr IS NULL. ", "select c1,c2,c3 from t1 left outer join t2 on t1.c1=t2.c1 where t2.c2 is null", 0, some "RuleOK"⟩),
  ("JOI.005", ⟨"JOI.005", "L2", "Reduce the number of JOINs", "Too many JOINs are a symptom of a complex bound query. Consider breaking down complex queries into many simple queries and reducing the number of JOINs. ", "select bp1.p_id, b1.d_d as l, b1.b_id from b1 join bp1 on (b1.b_id = bp1.b_id) left outer join (b1 as b2 join bp2 on (b2.b_id = bp2.b_id) ) on (bp1.p_id = bp2.p_id) join bp21 on (b1.b_id = bp1.b_id) join bp31 on (b1.b_id = bp1.b_id) join bp41 on (b1.b_id = bp1.b_id) where b2. b_id = 0", 0, some "RuleReduceNumberOfJoin"⟩),
  ("JOI.006", ⟨"JOI.006", "L4", "Rewriting a nested query to JOIN usually leads to more efficient execution and more effective optimization", "Generally speaking, non-nested subqueries are always used for associative subqueries, at most from a table in the FROM clause. These subqueries are used for ANY, ALL and EXISTS predicates. If it can be determined based on the query semantics that the subquery returns at most one row, then an unrelated subquery or subquery from multiple tables in the FROM clause will be flattened. ", "SELECT s,p,d FROM tbl WHERE p.p_id = (SELECT s.p_id FROM tbl WHERE s.c_id = 100996 AND s.q = 1 )", 0, some "RuleNestedSubQueries"⟩),
  ("JOI.007", ⟨"JOI.007", "L4", "It is not recommended to delete or update associated tables", "When you need to delete or update multiple tables at the same time, it is recommended to use simple statements. One SQL only deletes or updates one table. Try not to combine the operations of multiple tables in the same statement. ", "UPDATE users u LEFT JOIN hobby h ON u.id = h.uid SET u.name =\x27pianoboy\x27 WHERE h.hobby =\x27piano\x27;", 0, some "RuleMultiDeleteUpdate"⟩),
  ("JOI.008", ⟨"JOI.008", "L4", "Don\x27t use cross-database JOIN queries", "Generally speaking, a cross-database JOIN query means that the query statement spans two different subsystems, which may mean that the system coupling is too high or the library table structure design is unreasonable. ", "SELECT s,p,d FROM tbl WHERE p.p_id = (SELECT s.p_id FROM tbl WHERE s.c_id = 100996 AND s.q = 1 )", 0, some "RuleMultiDBJoin"⟩),
  ("KEY.001", ⟨"KEY.001", "L2", "It is recommended to use an auto-increment column as the primary key. If you use a joint auto-increment primary key, please use the auto-increment key as the first column", "It is recommended to use an auto-increment column as the primary key. If you use a joint auto-increment primary key, please use the auto-increment key as the first column.", "create table test(\x60id\x60 int(11) NOT NULL PRIMARY KEY (\x60id\x60))", 0, some "RulePKNotInt"⟩),
  ("KEY.002", ⟨"KEY.002", "L4", "There is no primary key or unique key, and the table structure cannot be changed online", "No primary key or unique key, table structure cannot be changed online", "create table test(col varchar(5000))", 0, some "RuleNoOSCKey"⟩)
]

set_option linter.unusedVariables false in
/-- Catalog entries KEY.003 – RES.001 of `InitHeuristicRules`, in source order. -/
def catalogPart5 (cfg : Config) : List (String × Rule) := [
  ("KEY.003", ⟨"KEY.003", "L4", "Avoid recursive relationships such as foreign keys", "Data with recursive relationships is very common, and data is often organized like a tree or hierarchically. However, creating a foreign key constraint to enforce the relationship between two columns in the same table can lead to clumsy queries. Each level of the tree corresponds to another connection. You will need to issue a recursive query to get all descendants or all ancestors of the node. The solution is to construct an additional closure table. It records the relationship between all nodes in the tree, not just those that have a direct parent-child relationship. You can also compare different levels of data design: closure tables, path enumerations, nested sets. Then choose one according to the needs of the application. ", "CREATE TABLE tab2 (p_id BIGINT UNSIGNED NOT NULL,a_id BIGINT UNSIGNED NOT NULL,PRIMARY KEY (p_id, a_id),FOREIGN KEY (p_id) REFERENCES tab1(p_id),FOREIGN KEY (a_id) REFERENCES tab3(a_idENCE))", 0, some "RuleRecursiveDependency"⟩),
  ("KEY.004", ⟨"KEY.004", "L0", "Reminder: Please align the index attribute order with the query", "If you create a composite index for a column, please make sure that the order of the query attributes and index attributes is the same so that the DBMS can use the index when processing the query. If the query and index attribute orders are not aligned, the DBMS may not be able to use the index during query processing. ", "create index idx1 on tbl (last_name,first_name)", 0, some "RuleIndexAttributeOrder"⟩),
  ("KEY.005", ⟨"KEY.005", "L2", "Too many indexes are built on the table", "Table built too many indexes", "CREATE TABLE tbl (a int, b int, c int, KEY idx_a (\x60a\x60),KEY idx_b(\x60b\x60),KEY idx_c(\x60c\x60));", 0, some "RuleTooManyKeys"⟩),
  ("KEY.006", ⟨"KEY.006", "L4", "Too many columns in the primary key", "Too many columns in primary key", "CREATE TABLE tbl (a int, b int, c int, PRIMARY KEY(\x60a\x60,\x60b\x60,\x60c\x60));", 0, some "RuleTooManyKeyParts"⟩),
  ("KEY.007", ⟨"KEY.007", "L4", "The primary key is not specified or the primary key is not int or bigint", "The primary key is not specified or the primary key is not int or bigint. It is recommended to set the primary key to int unsigned or bigint unsigned. ", "CREATE TABLE tbl (a int);", 0, some "RulePKNotInt"⟩),
  ("KEY.008", ⟨"KEY.008", "L4", "ORDER BY multiple columns but different sorting directions may not be able to use the index", "Before MySQL 8.0, when multiple columns of ORDER BY specify different sorting directions, the established index cannot be used. ", "SELECT * FROM tbl ORDER BY a DESC, b ASC;", 0, some "RuleOrderByMultiDirection"⟩),
  ("KEY.009", ⟨"KEY.009", "L0", "Please check the data uniqueness before adding a unique index", "Please check the data uniqueness of the added unique index column in advance. If the data is not unique, the duplicate columns may be automatically deleted when the online table structure is adjusted, which may cause data loss. ", "CREATE UNIQUE INDEX part_of_name ON customer (name(10));", 0, some "RuleUniqueKeyDup"⟩),
  ("KEY.010", ⟨"KEY.010", "L0", "Full-text indexing is not a silver bullet", "Full-text index is mainly used to solve the performance problem of fuzzy query, but it is necessary to control the frequency and concurrency of the query. At the same time, pay attention to adjust the ft_min_word_len, ft_max_word_len, ngram_token_size and other parameters. ", "CREATE TABLE \x60tb\x60 (\x60id\x60 int(10) unsigned NOT NULL AUTO_INCREMENT, \x60ip\x60 varchar(255) NOT NULL DEFAULT\x27\x27, PRIMARY KEY (\x60id\x60), FULLTEXT KEY \x60ip\x60 (\x60ip \x60)) ENGINE=InnoDB;", 0, some "RuleFulltextIndex"⟩),
  ("KWR.001", ⟨"KWR.001", "L2", "SQL_CALC_FOUND_ROWS is inefficient", "Because SQL_CALC_FOUND_ROWS can\x27t scale well, it may cause performance problems; it is recommended that the business use other strategies to replace the counting function provided by SQL_CALC_FOUND_ROWS, such as: paging results display, etc. ", "select SQL_CALC_FOUND_ROWS col from tbl where id>1000", 0, some "RuleSQLCalcFoundRows"⟩),
  ("KWR.002", ⟨"KWR.002", "L2", "It is not recommended to use MySQL keywords as column names or table names", "When using keywords as column names or table names, the program needs to escape the column names and table names. If negligence is caused, the request cannot be executed. ", "CREATE TABLE tbl (\x60select\x60 int )", 0, some "RuleUseKeyWord"⟩),
  ("KWR.003", ⟨"KWR.003", "L1", "It is not recommended to use plural numbers as column names or table names", "The name of the table should only indicate the content of the entity in the table, not the number of entities, and the corresponding DO class name is also in singular form, which conforms to the expression habit. ", "CREATE TABLE tbl (\x60books\x60 int )", 0, some "RulePluralWord"⟩),
  ("KWR.004", ⟨"KWR.004", "L1", "It is not recommended to use multi-byte encoded characters (Chinese) for naming", "It is recommended to use English, numbers, underscores and other characters when naming libraries, tables, columns, and aliases. Chinese or other multi-byte encoded characters are not recommended. ", "select col as column from tb", 0, some "RuleMultiBytesWord"⟩),
  ("KWR.005", ⟨"KWR.005", "L1", "SQL contains unicode special characters", "Some IDEs will automatically insert unicode characters invisible to the naked eye in SQL. Such as: non-break space, zero-width space, etc. Under Linux, you can use the \x60cat -A file.sql\x60 command to view invisible characters.", "update tb set status = 1 where id = 1;", 0, some "RuleInvisibleUnicode"⟩),
  ("LCK.001", ⟨"LCK.001", "L3", "INSERT INTO xx SELECT has large locking granularity, please be cautious", "INSERT INTO xx SELECT lock granularity is large, please be careful", "INSERT INTO tbl SELECT * FROM tbl2;", 0, some "RuleInsertSelect"⟩),
  ("LCK.002", ⟨"LCK.002", "L3", "Please use INSERT ON DUPLICATE KEY UPDATE with caution", "Using INSERT ON DUPLICATE KEY UPDATE when the primary key is an auto-increment key may cause a large number of discontinuous and rapid growth of the primary key, resulting in rapid overflow of the primary key and unable to continue writing. In extreme cases, the master-slave data may be inconsistent. ", "INSERT INTO t1(a,b,c) VALUES (1,2,3) ON DUPLICATE KEY UPDATE c=c+1;", 0, some "RuleInsertOnDup"⟩),
  ("LIT.001", ⟨"LIT.001", "L2", "Use character type to store IP address", "The string literally looks like an IP address, but it is not a parameter of INET_ATON(), indicating that the data is stored as characters instead of integers. It is more efficient to store the IP address as an integer. ", "insert into tbl (IP,name) values(\x2710.20.306.122\x27,\x27test\x27)", 0, some "RuleIPString"⟩),
  ("LIT.002", ⟨"LIT.002", "L4", "The date/time is not enclosed in quotation marks", "Query such as \"WHERE col <2010-02-12\" is valid SQL, but it may be an error because it will be interpreted as \"WHERE col <1996\"; date/time text should be quoted. ", "select col1,col2 from tbl where time <2018-01-10", 0, some "RuleDataNotQuote"⟩),
  ("LIT.003", ⟨"LIT.003", "L3", "A collection of related data stored in a column", "Store the ID as a list as a VARCHAR/TEXT column, which can cause performance and data integrity issues. Querying such columns requires the use of pattern matching expressions. Using a comma-separated list to do a multi-table join query to locate a row of data is extremely inelegant and time-consuming. This will make it more difficult to verify the ID. Consider, how much data can the list support at most? Store IDs in a separate table instead of using multi-valued attributes, so that each individual attribute value can occupy a row. In this way, the cross table realizes the many-to-many relationship between the two tables. This will simplify the query better and verify the ID more effectively. ", "select c1,c2,c3,c4 from tab1 where col_id REGEXP\x27[[:<:]]12[[:>:]]\x27", 0, some "RuleMultiValueAttribute"⟩),
  ("LIT.004", ⟨"LIT.004", "L1", "Please use a semicolon or the set DELIMITER ending", "USE database, SHOW DATABASES and other commands also need to end with a semicolon or the set DELIMITER. ", "USE db", 0, some "RuleOK"⟩),
  ("RES.001", ⟨"RES.001", "L4", "Indeterministic GROUP BY", "The column returned by SQL is neither in the aggregate function nor in the column of the GROUP BY expression, so the result of these values ​​will be non-deterministic. For example: select a, b, c from tbl where foo=\"bar\" group by a, the result returned by the SQL is uncertain. ", "select c1,c2,c3 from t1 where c2=\x27foo\x27 group by c2", 0, some "RuleNoDeterministicGroupby"⟩)
]

set_option linter.unusedVariables false in
/-- Catalog entries RES.002 – SUB.002 of `InitHeuristicRules`, in source order. -/
def catalogPart6 (cfg : Config) : List (String × Rule) := [
  ("RES.002", ⟨"RES.002", "L4", "LIMIT query without ORDER BY", "LIMIT without ORDER BY will lead to non-deterministic results, depending on the query execution plan. ", "select col1,col2 from tbl where name=xx limit 10", 0, some "RuleNoDeterministicLimit"⟩),
  ("RES.003", ⟨"RES.003", "L4", "UPDATE/DELETE operation uses LIMIT conditions", "UPDATE/DELETE operation using LIMIT condition is as dangerous as not adding WHERE condition, it may cause inconsistency of master-slave data or interruption of slave database synchronization. ", "UPDATE film SET length = 120 WHERE title =\x27abc\x27 LIMIT 1;", 0, some "RuleUpdateDeleteWithLimit"⟩),
  ("RES.004", ⟨"RES.004", "L4", "UPDATE/DELETE operation specifies the ORDER BY condition", "Do not specify ORDER BY conditions for UPDATE/DELETE operations. ", "UPDATE film SET length = 120 WHERE title =\x27abc\x27 ORDER BY title", 0, some "RuleUpdateDeleteWithOrderby"⟩),
  ("RES.005", ⟨"RES.005", "L4", "There may be logic errors in the UPDATE statement, resulting in data corruption", "In an UPDATE statement, if you want to update multiple fields, you cannot use AND between the fields, but should be separated by commas.", "update tbl set col = 1 and cl = 2 where col=3;", 0, some "RuleUpdateSetAnd"⟩),
  ("RES.006", ⟨"RES.006", "L4", "Never really compare conditions", "The query condition is never true. If the condition appears in where, it may cause the query to have no matching results.", "select * from tbl where 1 != 1;", 0, some "RuleImpossibleWhere"⟩),
  ("RES.007", ⟨"RES.007", "L4", "Comparison condition is always true", "The query condition is always true, which may cause the WHERE condition to become invalid for full table query.", "select * from tbl where 1 = 1;", 0, some "RuleMeaninglessWhere"⟩),
  ("RES.008", ⟨"RES.008", "L2", "It is not recommended to use LOAD DATA/SELECT ... INTO OUTFILE", "SELECT INTO OUTFILE needs to be granted FILE permission, which will introduce security issues. Although LOAD DATA can increase the speed of data import, it may also cause excessive delay in synchronization from the library.", "LOAD DATA INFILE\x27data.txt\x27 INTO TABLE db2.my_table;", 0, some "RuleLoadFile"⟩),
  ("RES.009", ⟨"RES.009", "L2", "Continuous judgment is not recommended", "Similar to this SELECT * FROM tbl WHERE col = col =\x27abc\x27 statement may be a writing error, the meaning you may want to express is col =\x27abc\x27. If it is indeed a business requirement, it is recommended to modify it to col = col and col =\x27abc\x27.", "SELECT * FROM tbl WHERE col = col =\x27abc\x27", 0, some "RuleMultiCompare"⟩),
  ("RES.010", ⟨"RES.010", "L2", "The field defined as ON UPDATE CURRENT_TIMESTAMP in the table building statement is not recommended to contain business logic", "The field defined as ON UPDATE CURRENT_TIMESTAMP will be modified when other fields of the table are updated. If it contains business logic, the user will see hidden dangers. If you modify the data in batches but do not want to modify the field, it will cause data errors. ", "CREATE TABLE category (category_id TINYINT UNSIGNED NOT NULL AUTO_INCREMENT, name VARCHAR(25) NOT NULL, last_update TIMESTAMP NOT NULL DEFAULT CURRENT_TIMESTAMP ON UPDATE CURRENT_TIMESTAMP, PRIMARY KEY (category_id)", 0, some "RuleCreateOnUpdate"⟩),
  ("RES.011", ⟨"RES.011", "L2", "The table of the update request operation contains the ON UPDATE CURRENT_TIMESTAMP field", "The field defined as ON UPDATE CURRENT_TIMESTAMP will be modified when other fields in the table are updated. Please check. If you don’t want to modify the update time of the field, you can use the following method: UPDATE category SET name=\x27ActioN\x27, last_update=last_update WHERE category_id=1", "UPDATE category SET name=\x27ActioN\x27, last_update=last_update WHERE category_id=1", 0, some "RuleOK"⟩),
  ("SEC.001", ⟨"SEC.001", "L0", "Please use TRUNCATE operation with caution", "Generally speaking, the fastest way to empty a table is to use the TRUNCATE TABLE tbl_name; statement. However, the TRUNCATE operation is not without cost. TRUNCATE TABLE cannot return the exact number of deleted rows. If you need to return the number of deleted rows, it is recommended to use DELETE syntax. TRUNCATE operation will also reset AUTO_INCREMENT, if you don\x27t want to reset the value, it is recommended to use DELETE FROM tbl_name WHERE 1; instead. The TRUNCATE operation will add source data locks (MDL) to the data dictionary. When TRUNCATE many tables are required at one time, it will affect all requests of the entire instance. Therefore, if you want to TRUNCATE multiple tables, it is recommended to use DROP+CREATE to reduce the lock duration. ", "TRUNCATE TABLE tbl_name", 0, some "RuleTruncateTable"⟩),
  ("SEC.002", ⟨"SEC.002", "L0", "Do not store passwords in clear text", "It is not safe to store passwords in plain text or to transmit passwords in plain text on the network. If an attacker can intercept the SQL statement you use to insert the password, they can read the password directly. In addition, inserting the string entered by the user into a pure SQL statement in plaintext will also allow the attacker to discover it. If you can read the password, so can a hacker. The solution is to use a one-way hash function to encrypt the original password. Hashing refers to a function that transforms an input string into another new, unrecognizable string. Add a random string to the password encryption expression to defend against \"dictionary attacks.\" Do not enter the plaintext password into the SQL query statement. Calculate the hash string in the application code, and only use the hash string in the SQL query. ", "create table test(id int,name varchar(20) not null,password varchar(200)not null)", 0, some "RuleReadablePasswords"⟩),
  ("SEC.003", ⟨"SEC.003", "L0", "Pay attention to backup when using DELETE/DROP/TRUNCATE and other operations", "It is necessary to back up data before performing high-risk operations. ", "delete from table where col =\x27condition\x27", 0, some "RuleDataDrop"⟩),
  ("SEC.004", ⟨"SEC.004", "L0", "Found common SQL injection functions", "SLEEP(), BENCHMARK(), GET_LOCK(), RELEASE_LOCK() and other functions usually appear in SQL injection statements, which will seriously affect database performance. ", "SELECT BENCHMARK(10, RAND())", 0, some "RuleInjection"⟩),
  ("STA.001", ⟨"STA.001", "L0", "\x27!=\x27 operator is non-standard", "\"<>\" is the inequality operator in standard SQL. ", "select col1,col2 from tbl where type!=0", 0, some "RuleStandardINEQ"⟩),
  ("STA.002", ⟨"STA.002", "L1", "It is recommended not to add spaces after the dot of the library name or table name", "When using the db.table or table.column format to access a table or field, please do not add a space after the dot, although the syntax is correct. ", "select col from sakila. film", 0, some "RuleSpaceAfterDot"⟩),
  ("STA.003", ⟨"STA.003", "L1", "The index naming is not standardized", "It is recommended that the common secondary index be prefixed with " ++ cfg.IdxPrefix ++ ", and the unique index should be prefixed with" ++ cfg.UkPrefix ++ ". ", "select col from now where type!=0", 0, some "RuleIdxPrefix"⟩),
  ("STA.004", ⟨"STA.004", "L1", "Please do not use characters other than letters, numbers and underscores when naming", "Start with a letter or underscore. Only letters, numbers and underscores are allowed in the name. Please unify capitalization and do not use camel case nomenclature. Do not use consecutive underscores\x27__\x27 in the name, as it is difficult to recognize. ", "CREATE TABLE \x60abc\x60 (a int);", 0, some "RuleStandardName"⟩),
  ("SUB.001", ⟨"SUB.001", "L4", "MySQL has a poor optimization effect on subqueries", "MySQL executes a subquery with each row in the external query as a dependent subquery. This is a common cause of severe performance problems. This may be improved in MySQL 5.6 version, but for 5.1 and earlier versions, it is recommended to rewrite this type of query as JOIN or LEFT OUTER JOIN respectively. ", "select col1,col2,col3 from table1 where col2 in(select col from table2)", 0, some "RuleInSubquery"⟩),
  ("SUB.002", ⟨"SUB.002", "L2", "If you don\x27t care about duplication, it is recommended to use UNION ALL instead of UNION", "Unlike UNION which removes duplicates, UNION ALL allows duplicate tuples. If you don\x27t care about repeated tuples, then using UNION ALL will be a faster option. ", "select teacher_id as id,people_name as name from t1,t2 where t1.teacher_id=t2.people_id union select student_id as id,people_name as name from t1,t2 where t1.student_id=t2.people_id", 0, some "RuleUNIONUsage"⟩)
]

set_option linter.unusedVariables false in
/-- Catalog entries SUB.003 – TBL.008 of `InitHeuristicRules`, in source order. -/
def catalogPart7 (cfg : Config) : List (String × Rule) := [
  ("SUB.003", ⟨"SUB.003", "L3", "Consider using EXISTS instead of DISTINCT subqueries", "DISTINCT keyword deletes duplicates after sorting tuples. Instead, consider using a subquery with the EXISTS keyword, you can avoid returning the entire table. ", "SELECT DISTINCT c.c_id, c.c_name FROM c,e WHERE e.c_id = c.c_id", 0, some "RuleDistinctJoinUsage"⟩),
  ("SUB.004", ⟨"SUB.004", "L3", "The nested connection depth in the execution plan is too deep", "MySQL\x27s optimization effect on sub-queries is not good. MySQL will execute sub-queries as dependent sub-queries for each row in the external query. This is a common cause of severe performance problems. ", "SELECT * from tb where id in (select id from (select id from tb))", 0, some "RuleSubqueryDepth"⟩),
  ("SUB.005", ⟨"SUB.005", "L8", "Subqueries do not support LIMIT", "The current MySQL version does not support\x27LIMIT & IN/ALL/ANY/SOME\x27 in sub-queries. ", "SELECT * FROM staff WHERE name IN (SELECT NAME FROM customer ORDER BY name LIMIT 1)", 0, some "RuleSubQueryLimit"⟩),
  ("SUB.006", ⟨"SUB.006", "L2", "It is not recommended to use functions in subqueries", "MySQL takes each row in the external query as a dependent subquery to execute a subquery. If a function is used in the subquery, it is difficult to perform an efficient query even with a semi-join. You can rewrite the subquery as an OUTER JOIN statement and filter the data with join conditions. ", "SELECT * FROM staff WHERE name IN (SELECT max(NAME) FROM customer)", 0, some "RuleSubQueryFunctions"⟩),
  ("SUB.007", ⟨"SUB.007", "L2", "For UNION joint queries with LIMIT output restrictions on the outer layer, it is recommended to add LIMIT output restrictions for the inner query.", "Sometimes MySQL cannot \"push down\" the restriction conditions from the outer layer to the inner layer, which will make the conditions that could restrict the partial return results unable to be applied to the optimization of the inner query. For example: (SELECT * FROM tb1 ORDER BY name) UNION ALL (SELECT * FROM tb2 ORDER BY name) LIMIT 20; MySQL will put the results of the two sub-queries in a temporary table, and then take out 20 results, which can be passed in the two LIMIT 20 is added to each subquery to reduce the data in the temporary table. (SELECT * FROM tb1 ORDER BY name LIMIT 20) UNION ALL (SELECT * FROM tb2 ORDER BY name LIMIT 20) LIMIT 20;", "(SELECT * FROM tb1 ORDER BY name LIMIT 20) UNION ALL (SELECT * FROM tb2 ORDER BY name LIMIT 20) LIMIT 20;", 0, some "RuleUNIONLimit"⟩),
  ("TBL.001", ⟨"TBL.001", "L4", "Partition table is not recommended", "Partition table is not recommended", "CREATE TABLE trb3(id INT, name VARCHAR(50), purchased DATE) PARTITION BY RANGE(YEAR(purchased)) (PARTITION p0 VALUES LESS THAN (1990), PARTITION p1 VALUES LESS THAN (1995), PARTITION p2 VALUES LESS THAN (2000), PARTITION p3 VALUES LESS THAN (2005) );", 0, some "RulePartitionNotAllowed"⟩),
  ("TBL.002", ⟨"TBL.002", "L4", "Please select the appropriate storage engine for the table", "It is recommended to use the recommended storage engine when creating a table or modifying the storage engine of a table, such as: " ++ String.intercalate "," cfg.AllowEngines, "create table test(\x60id\x60 int(11) NOT NULL AUTO_INCREMENT)", 0, some "RuleAllowEngine"⟩),
  ("TBL.003", ⟨"TBL.003", "L8", "The table named DUAL has a special meaning in the database", "DUAL table is a virtual table, you don\x27t need to create it to use it, and it is not recommended that the service name the table with DUAL. ", "create table dual(id int, primary key (id));", 0, some "RuleCreateDualTable"⟩),
  ("TBL.004", ⟨"TBL.004", "L2", "The initial AUTO_INCREMENT value of the table is not 0", "AUTO_INCREMENT is not 0 will cause data holes. ", "CREATE TABLE tbl (a int) AUTO_INCREMENT = 10;", 0, some "RuleAutoIncrementInitNotZero"⟩),
  ("TBL.005", ⟨"TBL.005", "L4", "Please use the recommended character set", "The table character set is only allowed to be set to\x27" ++ String.intercalate "," cfg.AllowCharsets ++ "\x27", "CREATE TABLE tbl (a int) DEFAULT CHARSET = latin1;", 0, some "RuleTableCharsetCheck"⟩),
  ("TBL.006", ⟨"TBL.006", "L1", "View is not recommended", "View is not recommended", "create view v_today (today) AS SELECT CURRENT_DATE;", 0, some "RuleForbiddenView"⟩),
  ("TBL.007", ⟨"TBL.007", "L1", "It is not recommended to use temporary tables", "Temporary tables are not recommended", "CREATE TEMPORARY TABLE \x60work\x60 (\x60time\x60 time DEFAULT NULL) ENGINE=InnoDB;", 0, some "RuleForbiddenTempTable"⟩),
  ("TBL.008", ⟨"TBL.008", "L4", "Please use the recommended COLLATE", "COLLATE is only allowed to be set to\x27" ++ String.intercalate "," cfg.AllowCollates ++ "\x27", "CREATE TABLE tbl (a int) DEFAULT COLLATE = latin1_bin;", 0, some "RuleTableCharsetCheck"⟩)
]

/-- The heuristic rule catalog built by `InitHeuristicRules` (the process-wide
map `HeuristicRules`), parametrized by the configuration values some entries
interpolate (`common.Config.*`).  Entries appear in source order; the `Func`
field of each entry records the name of the Go check method assigned to it,
`none` modelling a nil function reference. -/
def HeuristicRules (cfg : Config) : List (String × Rule) :=
  catalogPart1 cfg
    ++ catalogPart2 cfg
    ++ catalogPart3 cfg
    ++ catalogPart4 cfg
    ++ catalogPart5 cfg
    ++ catalogPart6 cfg
    ++ catalogPart7 cfg
/-- The `ignoreOK` flag of `FormatSuggest`: whether the ignore
configuration lists `"OK"` verbatim. -/
def ignoreOKFlag (cfg : Config) : Bool :=
  cfg.IgnoreRules.any (fun r => "OK" == r)

/-- Pre-render normalization of `FormatSuggest` (advisor/rules.go,
lines 1286–1304): synthesize the `OK` sentinel when the merged set is
empty, remove it when the set has more than one entry or `OK` is ignored,
then drop every item the ignore gate suppresses. -/
def normalizeSuggest (cfg : Config) (merged : List (String × Rule)) :
    List (String × Rule) :=
  let s1 := if merged.length < 1 then
      [("OK", getRule (HeuristicRules cfg) "OK")] else merged
  let s2 := if ignoreOKFlag cfg = true ∨ 1 < s1.length then eraseKey s1 "OK"
    else s1
  s2.filter (fun p => !(IsIgnoreRule cfg p.1))

/-- The merge loop of `FormatSuggest`: later suggest maps overwrite earlier
bindings of the same item. -/
def mergeSuggests (suggests : List (List (String × Rule))) :
    List (String × Rule) :=
  suggests.foldl (fun acc s => s.foldl (fun acc2 p => insertRule acc2 p.1 p.2) acc) []

/-- Sorted `ERR`-prefixed items with non-empty `Content` (the
`sortedMySQLSuggest` slice of the markdown/html path). -/
def mdErrItems (s : List (String × Rule)) : List String :=
  sortStrings ((keys s).filter
    (fun k => hasPrefixGo "ERR" k && (getRule s k).Content != ""))

/-- The verdict map after the markdown/html `ERR` section: empty-`Content`
`ERR` entries are deleted while collecting, the rendered ones after
rendering, so no `ERR` entry survives. -/
def mdAfterErr (s : List (String × Rule)) : List (String × Rule) :=
  s.filter (fun p => !(hasPrefixGo "ERR" p.1))

/-- The `EXP.000` summary verdict as read by the markdown/html path
(Go map read, zero value when absent). -/
def mdExp0 (s : List (String × Rule)) : Rule :=
  getRule (mdAfterErr s) "EXP.000"

/-- The verdict map after the `EXP.000` header is rendered and deleted
(deleted only when its stored `Item` is non-empty, as in the source). -/
def mdAfterExp0 (s : List (String × Rule)) : List (String × Rule) :=
  if (mdExp0 s).Item != "" then eraseKey (mdAfterErr s) "EXP.000"
  else mdAfterErr s

/-- Sorted `EXP`-prefixed items of the markdown/html path (`EXP.000`
already removed); these are rendered but not deleted. -/
def mdExpItems (s : List (String × Rule)) : List String :=
  sortStrings ((keys (mdAfterExp0 s)).filter (fun k => hasPrefixGo "EXP" k))

/-- Sorted `PRO`-prefixed items of the markdown/html path. -/
def mdProItems (s : List (String × Rule)) : List String :=
  sortStrings ((keys (mdAfterExp0 s)).filter (fun k => hasPrefixGo "PRO" k))

/-- The verdict map after the profiling section deletes its items. -/
def mdAfterPro (s : List (String × Rule)) : List (String × Rule) :=
  (mdAfterExp0 s).filter (fun p => !(hasPrefixGo "PRO" p.1))

/-- Sorted `TRA`-prefixed items of the markdown/html path. -/
def mdTraItems (s : List (String × Rule)) : List String :=
  sortStrings ((keys (mdAfterPro s)).filter (fun k => hasPrefixGo "TRA" k))

/-- The verdict map after the trace section deletes its items; this is the
map the index and heuristic sections run on and the map `FormatSuggest`
returns for the markdown/html formats. -/
def mdAfterTra (s : List (String × Rule)) : List (String × Rule) :=
  (mdAfterPro s).filter (fun p => !(hasPrefixGo "TRA" p.1))

/-- Sorted `IDX`-prefixed items of the markdown/html path. -/
def mdIdxItems (s : List (String × Rule)) : List String :=
  sortStrings ((keys (mdAfterTra s)).filter (fun k => hasPrefixGo "IDX" k))

/-- Sorted heuristic items of the markdown/html path: everything that is
neither `EXP`- nor `IDX`- nor `PRO`-prefixed in the remaining map. -/
def mdHeuItems (s : List (String × Rule)) : List String :=
  sortStrings ((keys (mdAfterTra s)).filter (fun k =>
    !(hasPrefixGo "EXP" k) && !(hasPrefixGo "IDX" k) && !(hasPrefixGo "PRO" k)))

/-- One step of the markdown/html index-section score update: the severity
ordinal is `strconv.Atoi` of the severity with `L` trimmed from both ends;
on success `5×` the ordinal is deducted (in wrapping 64-bit `int`
arithmetic), on any `Atoi` error — syntax or range — the score is set
to `0`. -/
def mdScoreStepIdx (m : List (String × Rule)) (sc : Int) (k : String) : Int :=
  if (goAtoi (trimChar 'L' (getRule m k).Severity)).2 = false then
    wrap64 (sc - wrap64 ((goAtoi (trimChar 'L' (getRule m k).Severity)).1 * 5))
  else 0

/-- One step of the markdown/html heuristic-section score update: the
sentinel `OK` is skipped, every other item updates the score exactly as the
index section does. -/
def mdScoreStepHeu (m : List (String × Rule)) (sc : Int) (k : String) : Int :=
  if k == "OK" then sc else mdScoreStepIdx m sc k

/-- The score after the markdown/html `ERR` section: each rendered `ERR`
verdict sets it to `0`, otherwise it stays at the initial `100`. -/
def mdScoreAfterErr (s : List (String × Rule)) : Int :=
  if (mdErrItems s).length > 0 then 0 else 100

/-- The score value the markdown/html path of `FormatSuggest` hands to the
rendered score line `common.Score(score)`: initial `100`, forced to `0` by
any rendered `ERR` verdict, then updated by the index and heuristic
sections.  No bottom clamp is applied. -/
def mdScore (s : List (String × Rule)) : Int :=
  (mdHeuItems s).foldl (mdScoreStepHeu (mdAfterTra s))
    ((mdIdxItems s).foldl (mdScoreStepIdx (mdAfterTra s)) (mdScoreAfterErr s))

/-- Result of the markdown/html rendering path: the buffer of emitted
strings, the final score, and the (mutated) verdict map. -/
structure MdResult where
  buf : List String
  score : Int
  rest : List (String × Rule)

/-- The query header of the markdown/html path: identifier line plus a
fenced block whose content is selected by
`common.Config.ExplainSQLReportType`. -/
def mdHeader (ext : Externals) (cfg : Config)
    (format sql id fingerprint : String) (s : List (String × Rule)) :
    List String :=
  if sql ≠ "" ∧ 0 < s.length then
    match cfg.ExplainSQLReportType with
    | "fingerprint" =>
        ["# Query: " ++ id ++ "\n", "```sql\n" ++ fingerprint ++ "\n```\n"]
    | "sample" =>
        ["# Query: " ++ id ++ "\n", "```sql\n" ++ sql ++ "\n```\n"]
    | _ =>
        ["# Query: " ++ id ++ "\n",
         "```sql\n" ++ ext.Pretty sql format ++ "\n```\n"]
  else []

/-- The `## MySQL execute failed` section of the markdown/html path. -/
def mdBufErr (s : List (String × Rule)) : List String :=
  (if 0 < (mdErrItems s).length then ["## MySQL execute failed\n"] else [])
    ++ (mdErrItems s).map (fun k => sprintln1 (getRule s k).Content)

/-- The `EXP.000` header section of the markdown/html path. -/
def mdBufExp0 (s : List (String × Rule)) : List String :=
  if (mdExp0 s).Item != "" then
    [sprintln2 "## " (mdExp0 s).Summary, sprintln1 (mdExp0 s).Content,
     (mdExp0 s).Case ++ "\n"]
  else []

/-- The remaining explain sections of the markdown/html path. -/
def mdBufExp (s : List (String × Rule)) : List String :=
  ((mdExpItems s).map (fun k =>
    [sprintln2 "### " (getRule (mdAfterExp0 s) k).Summary,
     sprintln1 (getRule (mdAfterExp0 s) k).Content,
     (getRule (mdAfterExp0 s) k).Case ++ "\n"])).flatten

/-- The profiling section of the markdown/html path. -/
def mdBufPro (s : List (String × Rule)) : List String :=
  (if 0 < (mdProItems s).length then ["## Profiling信息\n"] else [])
    ++ (mdProItems s).map (fun k => sprintln1 (getRule (mdAfterExp0 s) k).Content)

/-- The trace section of the markdown/html path. -/
def mdBufTra (s : List (String × Rule)) : List String :=
  (if 0 < (mdTraItems s).length then ["## Trace信息\n"] else [])
    ++ (mdTraItems s).map (fun k => sprintln1 (getRule (mdAfterPro s) k).Content)

/-- The index-advisor section of the markdown/html path. -/
def mdBufIdx (ext : Externals) (format : String) (s : List (String × Rule)) :
    List String :=
  ((mdIdxItems s).map (fun k =>
    [sprintln2 "## " (ext.MarkdownEscape (getRule (mdAfterTra s) k).Summary),
     sprintln2 "* **Item:** " k,
     sprintln2 "* **Severity:** " (getRule (mdAfterTra s) k).Severity,
     sprintln2 "* **Content:** " (ext.MarkdownEscape (getRule (mdAfterTra s) k).Content)]
    ++ (if format == "duplicate-key-checker" then
          ["* **原建表语句:** \n```sql\n" ++ (getRule (mdAfterTra s) k).Case
             ++ "\n```\n", "\n\n"]
        else
          ["* **Case:** " ++ ext.MarkdownEscape (getRule (mdAfterTra s) k).Case
             ++ "\n\n"]))).flatten

/-- The heuristic section of the markdown/html path (the sentinel `OK`
prints only its summary line and is skipped for the remaining fields and
the score update). -/
def mdBufHeu (ext : Externals) (s : List (String × Rule)) : List String :=
  ((mdHeuItems s).map (fun k =>
    if k == "OK" then
      [sprintln2 "##" (getRule (mdAfterTra s) k).Summary]
    else
      [sprintln2 "##" (getRule (mdAfterTra s) k).Summary,
       sprintln2 "* **Item:** " k,
       sprintln2 "* **Severity:** " (getRule (mdAfterTra s) k).Severity,
       sprintln2 "* **Content:** " (ext.MarkdownEscape (getRule (mdAfterTra s) k).Content)])).flatten

/-- The markdown/html ("markdown", "html", "explain-digest",
"duplicate-key-checker") branch of `FormatSuggest`, advisor/rules.go
lines 1327–1474, translated section by section. -/
def mdRender (ext : Externals) (cfg : Config)
    (format sql id fingerprint : String) (s : List (String × Rule)) :
    MdResult :=
  ⟨mdHeader ext cfg format sql id fingerprint s ++ mdBufErr s ++ mdBufExp0 s
     ++ mdBufExp s ++ mdBufPro s ++ mdBufTra s ++ mdBufIdx ext format s
     ++ mdBufHeu ext s,
   mdScore s, mdAfterTra s⟩

/-- One step of the `formatJSON` score loop: deduct `5×` the value `Atoi`
returned for the severity with `L` trimmed from the left — the error flag
is only logged, so a syntax error deducts `0` and a range error deducts
the clamped `MaxInt64`/`MinInt64`, in wrapping 64-bit `int` arithmetic —
then force the score to `0` if the item is `ERR`-prefixed with non-empty
`Content`. -/
def jsonScoreStep (sc : Int) (p : String × Rule) : Int :=
  let sc2 := wrap64 (sc - wrap64 ((goAtoi (trimLeftChar 'L' p.2.Severity)).1 * 5))
  if hasPrefixGo "ERR" p.1 && p.2.Content != "" then 0 else sc2

/-- The `formatJSON` score before the bottom clamp. -/
def jsonScoreRaw (s : List (String × Rule)) : Int :=
  s.foldl jsonScoreStep 100

/-- The `Score` field of the document built by `formatJSON`: the raw score
clamped to a minimum of `0`. -/
def jsonScore (s : List (String × Rule)) : Int :=
  if jsonScoreRaw s < 0 then 0 else jsonScoreRaw s

/-- Sorted `EXP`-prefixed items of `formatJSON`. -/
def jsonExplainItems (s : List (String × Rule)) : List String :=
  sortStrings ((keys s).filter (fun k => hasPrefixGo "EXP" k))

/-- Sorted `IDX`-prefixed items of `formatJSON`. -/
def jsonIndexItems (s : List (String × Rule)) : List String :=
  sortStrings ((keys s).filter (fun k => hasPrefixGo "IDX" k))

/-- Sorted heuristic items of `formatJSON`: neither `EXP`- nor
`IDX`-prefixed, and `ERR`-prefixed entries with empty `Content` are
skipped. -/
def jsonHeuItems (s : List (String × Rule)) : List String :=
  sortStrings ((keys s).filter (fun k =>
    !(hasPrefixGo "EXP" k) && !(hasPrefixGo "IDX" k)
      && !(hasPrefixGo "ERR" k && (getRule s k).Content == "")))

/-- The `JSONSuggest` document built by `formatJSON` before marshalling. -/
def formatJSONDoc (ext : Externals) (sql db : String)
    (s : List (String × Rule)) : JSONSuggest :=
  let fingerprint := ext.Fingerprint sql
  { ID := ext.Id fingerprint
    Fingerprint := fingerprint
    Score := jsonScore s
    Sample := sql
    Explain := (jsonExplainItems s).map (getRule s)
    HeuristicRules := (jsonHeuItems s).map (getRule s)
    IndexRules := (jsonIndexItems s).map (getRule s)
    Tables := ext.SchemaMetaInfo sql db }

/-- Model of `formatJSON` (advisor/rules.go): the marshalled document, or `""` when
marshalling fails. -/
def formatJSON (ext : Externals) (sql db : String)
    (s : List (String × Rule)) : String :=
  (ext.MarshalIndent (formatJSONDoc ext sql db s)).getD ""

/-- The final document assembly of `FormatSuggest` (advisor/rules.go,
lines 1484–1493): when the configured report type is markdown/html and
more than one buffer entry exists, the score line produced by
`common.Score` is interposed after the first entry; otherwise the buffer
entries are joined by newlines (an empty string results when the
markdown/html report type has at most one buffer entry). -/
def assembleStr (ext : Externals) (cfg : Config) (buf : List String)
    (score : Int) : String :=
  match cfg.ReportType with
  | "markdown" | "html" =>
      if 1 < buf.length then
        match buf with
        | b0 :: brest =>
            b0 ++ "\n" ++ ext.ScoreStr score ++ "\n\n"
              ++ String.intercalate "\n" brest
        | [] => ""
      else ""
  | _ => String.intercalate "\n" buf

/-- Model of `FormatSuggest` (advisor/rules.go): merge the suggest maps, resolve
conflicts, normalize, render in the selected format, and assemble the
final string (interposing the score line when the configured report type
is markdown/html).  Returns the (mutated) verdict map and the document. -/
def FormatSuggest (ext : Externals) (cfg : Config)
    (table : List (String × String)) (sql currentDB format : String)
    (suggests : List (List (String × Rule))) :
    List (String × Rule) × String :=
  let fingerprint := if sql != "" then ext.Fingerprint sql else ""
  let id := if sql != "" then ext.Id (ext.Fingerprint sql) else ""
  let suggest :=
    normalizeSuggest cfg (MergeConflictHeuristicRules table (mergeSuggests suggests))
  let bufScoreRest : List String × Int × List (String × Rule) :=
    match format with
    | "json" => ([formatJSON ext sql currentDB suggest], 100, suggest)
    | "text" =>
        ((suggest.map (fun p =>
          [sprintln2 "Query: " sql, sprintln2 "ID: " id,
           sprintln2 "Item: " p.1, sprintln2 "Severity: " p.2.Severity,
           sprintln2 "Summary: " p.2.Summary,
           sprintln2 "Content: " p.2.Content])).flatten, 100, suggest)
    | "lint" =>
        ((suggest.filter (fun p => p.1 != "OK" && !(hasPrefixGo "EXP" p.1))).map
          (fun p => p.1 ++ " " ++ p.2.Summary), 100, suggest)
    | "markdown" | "html" | "explain-digest" | "duplicate-key-checker" =>
        let r := mdRender ext cfg format sql id fingerprint suggest
        (r.buf, r.score, r.rest)
    | _ =>
        (sprintln2 "Query: " sql :: suggest.map (fun p => ext.PrettySprint p.2),
         100, suggest)
  (bufScoreRest.2.2, assembleStr ext cfg bufScoreRest.1 bufScoreRest.2.1)


/-! ### Generic lemmas about the association-list model of Go maps -/

theorem keys_perm {l1 l2 : List (String × Rule)} (h : l1.Perm l2) :
    (keys l1).Perm (keys l2) :=
  h.map Prod.fst

theorem keys_nodup_filter (pred : String × Rule → Bool)
    {s : List (String × Rule)} (nd : (keys s).Nodup) :
    (keys (s.filter pred)).Nodup :=
  ((List.filter_sublist s).map Prod.fst).nodup nd

theorem keys_nodup_eraseKey {s : List (String × Rule)} (k : String)
    (nd : (keys s).Nodup) : (keys (eraseKey s k)).Nodup :=
  keys_nodup_filter _ nd

theorem mem_keys_of_mem {s : List (String × Rule)} {p : String × Rule}
    (h : p ∈ s) : p.1 ∈ keys s :=
  List.mem_map.mpr ⟨p, h, rfl⟩

theorem keys_cons (x : String × Rule) (l : List (String × Rule)) :
    keys (x :: l) = x.1 :: keys l := rfl

theorem lookupRule_perm {l1 l2 : List (String × Rule)} (h : l1.Perm l2)
    (nd : (keys l1).Nodup) (k : String) :
    lookupRule l1 k = lookupRule l2 k := by
  induction h with
  | nil => rfl
  | cons x h ih =>
      rw [keys_cons] at nd
      simp only [lookupRule]
      split
      · rfl
      · exact ih (List.nodup_cons.mp nd).2
  | swap x y l =>
      rw [keys_cons, keys_cons] at nd
      have hxy : y.1 ≠ x.1 := by
        intro hk
        exact (List.nodup_cons.mp nd).1 (hk ▸ List.mem_cons_self _ _)
      simp only [lookupRule]
      by_cases h1 : y.1 = k
      · rw [if_pos h1, if_neg (fun h2 => hxy (h1.trans h2.symm)), if_pos h1]
      · rw [if_neg h1]
        by_cases h2 : x.1 = k
        · rw [if_pos h2, if_pos h2]
        · rw [if_neg h2, if_neg h2, if_neg h1]
  | trans h12 h23 ih1 ih2 =>
      exact (ih1 nd).trans (ih2 ((keys_perm h12).nodup nd))

theorem getRule_perm {l1 l2 : List (String × Rule)} (h : l1.Perm l2)
    (nd : (keys l1).Nodup) (k : String) : getRule l1 k = getRule l2 k := by
  unfold getRule
  rw [lookupRule_perm h nd k]

theorem lookupRule_eq_some_of_mem :
    ∀ {s : List (String × Rule)} {k : String} {r : Rule},
      (keys s).Nodup → (k, r) ∈ s → lookupRule s k = some r := by
  intro s
  induction s with
  | nil => intro k r _ hm; cases hm
  | cons hd tl ih =>
      intro k r nd hm
      rw [keys_cons] at nd
      have nd' := List.nodup_cons.mp nd
      simp only [lookupRule]
      rcases List.mem_cons.mp hm with heq | htl
      · rw [if_pos (congrArg Prod.fst heq.symm)]
        rw [← heq]
      · have hk : hd.1 ≠ k := by
          intro hk
          exact nd'.1 (hk ▸ mem_keys_of_mem htl)
        rw [if_neg hk]
        exact ih nd'.2 htl

theorem mem_of_lookupRule_eq_some :
    ∀ {s : List (String × Rule)} {k : String} {r : Rule},
      lookupRule s k = some r → (k, r) ∈ s := by
  intro s
  induction s with
  | nil => intro k r h; cases h
  | cons hd tl ih =>
      intro k r h
      simp only [lookupRule] at h
      split at h
      · rename_i heq
        cases h
        exact List.mem_cons.mpr (Or.inl (by rw [← heq]))
      · exact List.mem_cons.mpr (Or.inr (ih h))

theorem getRule_eq_of_mem {s : List (String × Rule)} {k : String} {r : Rule}
    (nd : (keys s).Nodup) (hm : (k, r) ∈ s) : getRule s k = r := by
  unfold getRule
  rw [lookupRule_eq_some_of_mem nd hm]
  rfl

theorem mem_of_mem_eraseKey {m : List (String × Rule)} {k : String}
    {p : String × Rule} (h : p ∈ eraseKey m k) : p ∈ m :=
  (List.mem_filter.mp h).1

/-! ### Sorting lemmas -/

theorem charsLe_total : ∀ as bs : List Char,
    charsLe as bs = true ∨ charsLe bs as = true := by
  intro as
  induction as with
  | nil => intro bs; exact Or.inl rfl
  | cons a as ih =>
      intro bs
      cases bs with
      | nil => exact Or.inr rfl
      | cons b bs =>
          by_cases hab : a = b
          · subst hab
            simp only [charsLe, if_pos rfl]
            exact ih bs
          · rcases Ne.lt_or_lt hab with h | h
            · left
              simp only [charsLe, if_neg hab]
              exact decide_eq_true h
            · right
              simp only [charsLe, if_neg (Ne.symm hab)]
              exact decide_eq_true h

theorem charsLe_trans : ∀ as bs cs : List Char,
    charsLe as bs = true → charsLe bs cs = true → charsLe as cs = true := by
  intro as
  induction as with
  | nil => intro bs cs _ _; rfl
  | cons a as ih =>
      intro bs cs h1 h2
      cases bs with
      | nil => cases h1
      | cons b bs =>
          cases cs with
          | nil => cases h2
          | cons c cs =>
              by_cases hab : a = b <;> by_cases hbc : b = c
              · subst hab; subst hbc
                simp only [charsLe, if_pos rfl] at h1 h2 ⊢
                exact ih bs cs h1 h2
              · subst hab
                simp only [charsLe, if_pos rfl] at h1
                simp only [charsLe, if_neg hbc] at h2 ⊢
                exact h2
              · subst hbc
                simp only [charsLe, if_neg hab] at h1 ⊢
                exact h1
              · simp only [charsLe, if_neg hab] at h1
                simp only [charsLe, if_neg hbc] at h2
                have hlt : a < c :=
                  lt_trans (of_decide_eq_true h1) (of_decide_eq_true h2)
                simp only [charsLe, if_neg (ne_of_lt hlt)]
                exact decide_eq_true hlt

theorem charsLe_antisymm : ∀ as bs : List Char,
    charsLe as bs = true → charsLe bs as = true → as = bs := by
  intro as
  induction as with
  | nil =>
      intro bs h1 h2
      cases bs with
      | nil => rfl
      | cons b bs => cases h2
  | cons a as ih =>
      intro bs h1 h2
      cases bs with
      | nil => cases h1
      | cons b bs =>
          by_cases hab : a = b
          · subst hab
            simp only [charsLe, if_pos rfl] at h1 h2
            rw [ih bs h1 h2]
          · simp only [charsLe, if_neg hab] at h1
            simp only [charsLe, if_neg (Ne.symm hab)] at h2
            exact absurd (of_decide_eq_true h2)
              (lt_asymm (of_decide_eq_true h1))

theorem string_ext {a b : String} (h : a.data = b.data) : a = b := by
  cases a
  cases b
  cases h
  rfl

instance : IsTotal String (fun a b => strLe a b = true) :=
  ⟨fun a b => charsLe_total a.data b.data⟩

instance : IsTrans String (fun a b => strLe a b = true) :=
  ⟨fun a b c => charsLe_trans a.data b.data c.data⟩

instance : IsAntisymm String (fun a b => strLe a b = true) :=
  ⟨fun a b h1 h2 => string_ext (charsLe_antisymm a.data b.data h1 h2)⟩

theorem sortStrings_sorted (l : List String) :
    (sortStrings l).Sorted (fun a b => strLe a b = true) :=
  List.sorted_insertionSort _ l

theorem sortStrings_perm (l : List String) : (sortStrings l).Perm l :=
  List.perm_insertionSort _ l

theorem sortStrings_eq_of_perm {a b : List String} (h : a.Perm b) :
    sortStrings a = sortStrings b :=
  List.eq_of_perm_of_sorted
    ((sortStrings_perm a).trans (h.trans (sortStrings_perm b).symm))
    (sortStrings_sorted a) (sortStrings_sorted b)

theorem mem_sortStrings {k : String} {l : List String} :
    k ∈ sortStrings l ↔ k ∈ l :=
  (sortStrings_perm l).mem_iff

/-! ### Fold lemmas -/

theorem foldl_congr_mem {α β : Type} {f g : β → α → β} :
    ∀ {l : List α} {i : β}, (∀ b a, a ∈ l → f b a = g b a) →
      l.foldl f i = l.foldl g i := by
  intro l
  induction l with
  | nil => intro i _; rfl
  | cons hd tl ih =>
      intro i h
      simp only [List.foldl_cons]
      rw [h i hd (List.mem_cons_self hd tl)]
      exact ih (fun b a ha => h b a (List.mem_cons_of_mem hd ha))

theorem foldl_preserve {α β : Type} (P : β → Prop) {f : β → α → β} :
    ∀ {l : List α} {i : β}, P i → (∀ b a, a ∈ l → P b → P (f b a)) →
      P (l.foldl f i) := by
  intro l
  induction l with
  | nil => intro i h0 _; exact h0
  | cons hd tl ih =>
      intro i h0 hstep
      simp only [List.foldl_cons]
      exact ih (hstep i hd (List.mem_cons_self hd tl) h0)
        (fun b a ha hb => hstep b a (List.mem_cons_of_mem hd ha) hb)

theorem any_perm {α : Type} {l1 l2 : List α} (h : l1.Perm l2) (f : α → Bool) :
    l1.any f = l2.any f := by
  rw [Bool.eq_iff_iff]
  simp only [List.any_eq_true]
  constructor
  · rintro ⟨x, hx, hfx⟩; exact ⟨x, h.mem_iff.mp hx, hfx⟩
  · rintro ⟨x, hx, hfx⟩; exact ⟨x, h.mem_iff.mpr hx, hfx⟩

theorem contains_perm {α : Type} [BEq α] {l1 l2 : List α} (h : l1.Perm l2)
    (a : α) : l1.contains a = l2.contains a := by
  rw [List.contains_eq_any_beq, List.contains_eq_any_beq]
  exact any_perm h _

/-! ### Concrete fixtures used by witnesses and counterexamples -/

/-- A configuration with every field at its zero value. -/
def baseConfig : Config :=
  ⟨[], [], "", "", 0, 0, [], [], [], [], "", ""⟩

/-- Trivial external collaborators, used to evaluate the pipeline at
concrete inputs. -/
def extDummy : Externals :=
  ⟨fun _ => "", fun _ => "", fun _ _ => "", fun _ _ => [],
   fun s => s, fun _ => "", fun _ => "", fun _ => none⟩

/-- Configuration whose ignore list is exactly `["COL"]`. -/
def cfgCOL : Config := { baseConfig with IgnoreRules := ["COL"] }

/-- Configuration whose ignore list is exactly `["OK"]`. -/
def cfgOKpat : Config := { baseConfig with IgnoreRules := ["OK"] }

/-- Configuration whose ignore list is exactly `["O"]`. -/
def cfgOpat : Config := { baseConfig with IgnoreRules := ["O"] }

theorem contains_iff_mem {l : List String} {a : String} :
    l.contains a = true ↔ a ∈ l := by
  rw [List.contains_eq_any_beq]
  simp only [List.any_eq_true, beq_iff_eq]
  constructor
  · rintro ⟨x, hx, rfl⟩; exact hx
  · intro h; exact ⟨a, h, rfl⟩

/-! ### C4: the ignore gate -/

/-- C4 (counterexample): the namespace-boundary clause of the claim and its
sentinel-protection clause are both false on the code: the ignore pattern
`"COL"` does suppress `"COLX.001"`, and the ignore pattern `"O"` does
suppress the sentinel `"OK"`. -/
theorem C4_counterexample :
    IsIgnoreRule cfgCOL "COLX.001" = true ∧ IsIgnoreRule cfgOpat "OK" = true := by
  decide

/-- C4 (amended): `IsIgnoreRule` suppresses an item exactly when some
configured pattern, after trimming `*` from both ends, is non-empty, is
not the exact string `"OK"`, and is a plain string prefix of the item —
with no namespace-boundary restriction.  Consequently the pattern `"COL"`
suppresses `COL.001`–`COL.019` and also `COLX.001`; the sentinel `"OK"`
is protected only against the exact pattern `"OK"`, while a pattern such
as `"O"` does suppress it. -/
theorem C4_ignore_gate :
    (∀ (cfg : Config) (item : String),
      IsIgnoreRule cfg item = true ↔
        ∃ ir ∈ cfg.IgnoreRules, hasPrefixGo (trimChar '*' ir) item = true ∧
          trimChar '*' ir ≠ "OK" ∧ trimChar '*' ir ≠ "")
    ∧ (["COL.001", "COL.002", "COL.003", "COL.004", "COL.005", "COL.006",
        "COL.007", "COL.008", "COL.009", "COL.010", "COL.011", "COL.012",
        "COL.013", "COL.014", "COL.015", "COL.016", "COL.017", "COL.018",
        "COL.019"].all (fun k => IsIgnoreRule cfgCOL k)) = true
    ∧ IsIgnoreRule cfgCOL "COLX.001" = true
    ∧ IsIgnoreRule cfgOKpat "OK" = false
    ∧ IsIgnoreRule cfgOpat "OK" = true := by
  refine ⟨?_, by decide, by decide, by decide, by decide⟩
  intro cfg item
  simp only [IsIgnoreRule, List.any_eq_true, Bool.and_eq_true, bne_iff_ne]
  constructor
  · rintro ⟨ir, hir, ⟨h1, h2⟩, h3⟩
    exact ⟨ir, hir, h1, h2, h3⟩
  · rintro ⟨ir, hir, h1, h2, h3⟩
    exact ⟨ir, hir, ⟨h1, h2⟩, h3⟩

/-! ### C7: the block-list gate -/

/-- C7 (confirmed): `InBlackList` returns `true` exactly when the query
text is string-equal to some block pattern, or some block pattern compiles
as a case-insensitive regular expression whose `FindString` on the text is
non-empty; a pattern that fails to compile only participates through its
literal-equality check, and the function is total (never fails). -/
theorem C7_inBlackList :
    ∀ (compile : String → Option (String → String)) (bl : List String)
      (sql : String),
      InBlackList compile bl sql = true ↔
        ((∃ r ∈ bl, sql = r) ∨
         (∃ r ∈ bl, ∃ f, compile ("(?i)" ++ r) = some f ∧ f sql ≠ "")) := by
  intro compile bl sql
  simp only [InBlackList, List.any_eq_true, Bool.or_eq_true, beq_iff_eq]
  constructor
  · rintro ⟨r, hr, heq | hre⟩
    · exact Or.inl ⟨r, hr, heq⟩
    · right
      refine ⟨r, hr, ?_⟩
      cases hc : compile ("(?i)" ++ r) with
      | none => rw [hc] at hre; cases hre
      | some f =>
          rw [hc] at hre
          exact ⟨f, rfl, by simpa [bne_iff_ne] using hre⟩
  · rintro (⟨r, hr, heq⟩ | ⟨r, hr, f, hc, hf⟩)
    · exact ⟨r, hr, Or.inl heq⟩
    · refine ⟨r, hr, Or.inr ?_⟩
      rw [hc]
      simpa [bne_iff_ne] using hf

/-! ### C9: the conflict resolver (spec-modelled) -/

theorem mergeConflict_perm (table : List (String × String))
    {s1 s2 : List (String × Rule)} (h : s1.Perm s2) :
    (MergeConflictHeuristicRules table s1).Perm
      (MergeConflictHeuristicRules table s2) := by
  unfold MergeConflictHeuristicRules
  have hfun : ∀ p : String × Rule,
      (!(table.any (fun t => t.2 == p.1 && (keys s1).contains t.1)))
        = (!(table.any (fun t => t.2 == p.1 && (keys s2).contains t.1))) := by
    intro p
    congr 1
    apply congrArg
    funext t
    rw [contains_perm (keys_perm h) t.1]
  rw [List.filter_congr (fun p _ => hfun p)]
  exact h.filter _

/-- C9 (confirmed; the resolver itself is modelled from the spec since its
body is outside this source file): conflict resolution is idempotent, and
its result does not depend on the iteration order of the input map — a
permutation of the input produces a permutation-equal (hence, as a map,
identical) result. -/
theorem C9_resolver :
    (∀ (table : List (String × String)) (s : List (String × Rule)),
       MergeConflictHeuristicRules table (MergeConflictHeuristicRules table s)
         = MergeConflictHeuristicRules table s)
    ∧ (∀ (table : List (String × String)) (s1 s2 : List (String × Rule)),
       s1.Perm s2 →
         (MergeConflictHeuristicRules table s1).Perm
           (MergeConflictHeuristicRules table s2)) := by
  constructor
  · intro table s
    apply List.filter_eq_self.mpr
    intro p hp
    have hps : (!(table.any (fun t => t.2 == p.1 && (keys s).contains t.1)))
        = true := (List.mem_filter.mp hp).2
    rw [Bool.not_eq_true'] at hps
    rw [Bool.not_eq_true']
    rw [List.any_eq_false] at hps
    rw [List.any_eq_false]
    intro t ht
    have h1 := hps t ht
    cases hb : (t.2 == p.1) with
    | false =>
        intro hcontra
        rw [Bool.false_and] at hcontra
        exact Bool.noConfusion hcontra
    | true =>
        intro hc2
        rw [Bool.true_and] at hc2
        have hsub : keys (MergeConflictHeuristicRules table s) ⊆ keys s :=
          ((List.filter_sublist s).map Prod.fst).subset
        apply h1
        rw [hb, Bool.true_and]
        exact contains_iff_mem.mpr (hsub (contains_iff_mem.mp hc2))
  · intro table s1 s2 h
    exact mergeConflict_perm table h

/-- Fixture verdict for the C9 witness. -/
def ruleA : Rule := ⟨"A", "L1", "a", "c", "", 0, none⟩

/-- Fixture verdict for the C9 witness. -/
def ruleB : Rule := ⟨"B", "L2", "b", "c", "", 0, none⟩

theorem C9_witness :
    (MergeConflictHeuristicRules [("A", "B")] [("B", ruleB), ("A", ruleA)]).Perm
      (MergeConflictHeuristicRules [("A", "B")] [("A", ruleA), ("B", ruleB)]) :=
  C9_resolver.2 [("A", "B")] _ _ (by decide)

/-! ### C10: catalog consistency -/

/-- Whether a severity string is the letter `L` followed by one digit. -/
def sevSingleDigit (s : String) : Bool :=
  match s.data with
  | ['L', c] => c.isDigit
  | _ => false

/-- Boolean pairwise-distinctness check for key lists. -/
def allDistinct : List String → Bool
  | [] => true
  | x :: xs => xs.all (fun y => x != y) && allDistinct xs

theorem allDistinct_nodup : ∀ {l : List String}, allDistinct l = true → l.Nodup := by
  intro l
  induction l with
  | nil => intro _; exact List.nodup_nil
  | cons x xs ih =>
      intro h
      rw [allDistinct, Bool.and_eq_true] at h
      refine List.nodup_cons.mpr ⟨?_, ih h.2⟩
      intro hmem
      have hx := List.all_eq_true.mp h.1 x hmem
      rw [bne_self_eq_false] at hx
      cases hx

/-- Per-entry consistency check of the catalog: stored `Item` equals the
key, the severity is `L` plus one digit, and a check function is
assigned. -/
def checkEntry (p : String × Rule) : Bool :=
  (p.2.Item == p.1) && sevSingleDigit p.2.Severity && p.2.Func.isSome

set_option maxHeartbeats 4000000 in
/-- C10 (confirmed): for every configuration the built catalog is
internally consistent — its keys are pairwise distinct, the `Item` of
every entry equals its key (so `Item` values are unique across the catalog),
every severity is `L` followed by a single digit, and every entry has a
non-nil check function. -/
theorem C10_catalog_consistent :
    ∀ cfg : Config,
      (keys (HeuristicRules cfg)).Nodup ∧
      ∀ p ∈ HeuristicRules cfg,
        p.2.Item = p.1 ∧ sevSingleDigit p.2.Severity = true ∧
          p.2.Func.isSome = true := by
  intro cfg
  have h : (allDistinct (keys (HeuristicRules cfg))
      && (HeuristicRules cfg).all checkEntry) = true := rfl
  rw [Bool.and_eq_true] at h
  refine ⟨allDistinct_nodup h.1, ?_⟩
  intro p hp
  have hc := List.all_eq_true.mp h.2 p hp
  simp only [checkEntry, Bool.and_eq_true, beq_iff_eq] at hc
  exact ⟨hc.1.1, hc.1.2, hc.2⟩

theorem C10_witness :
    (⟨"OK", "L0", "OK", "OK", "OK", 0, some "RuleOK"⟩ : Rule).Item = "OK" ∧
    sevSingleDigit (⟨"OK", "L0", "OK", "OK", "OK", 0, some "RuleOK"⟩ : Rule).Severity = true := by
  have h := (C10_catalog_consistent baseConfig).2
    ("OK", ⟨"OK", "L0", "OK", "OK", "OK", 0, some "RuleOK"⟩) (by decide)
  exact ⟨h.1, h.2.1⟩

/-! ### Severity sanity, wrap-around arithmetic and score-step lemmas -/

/-- Sanity of the severity of a verdict: whichever way the renderer trims
the `L` (left-only in `formatJSON`, both ends in the markdown/html loops),
`strconv.Atoi` parses it without error — in particular the digits fit the
machine range — to a single-digit ordinal between `0` and `9`, the format
every catalog severity has. -/
def SevOK (r : Rule) : Prop :=
  (goAtoi (trimLeftChar 'L' r.Severity)).2 = false ∧
  0 ≤ (goAtoi (trimLeftChar 'L' r.Severity)).1 ∧
  (goAtoi (trimLeftChar 'L' r.Severity)).1 ≤ 9 ∧
  (goAtoi (trimChar 'L' r.Severity)).2 = false ∧
  0 ≤ (goAtoi (trimChar 'L' r.Severity)).1 ∧
  (goAtoi (trimChar 'L' r.Severity)).1 ≤ 9

instance (r : Rule) : Decidable (SevOK r) := by
  unfold SevOK
  infer_instance

theorem wrap64_id {x : Int} (h1 : -9223372036854775808 ≤ x)
    (h2 : x ≤ 9223372036854775807) : wrap64 x = x := by
  unfold wrap64
  omega

theorem lookup_mem_of_mem_keys :
    ∀ {s : List (String × Rule)} {k : String}, k ∈ keys s →
      ∃ r, lookupRule s k = some r ∧ (k, r) ∈ s := by
  intro s
  induction s with
  | nil => intro k hk; cases hk
  | cons hd tl ih =>
      intro k hk
      by_cases heq : hd.1 = k
      · refine ⟨hd.2, ?_, ?_⟩
        · simp only [lookupRule]
          rw [if_pos heq]
        · subst heq
          exact List.mem_cons_self _ _
      · rw [keys_cons] at hk
        rcases List.mem_cons.mp hk with h1 | h1
        · exact absurd h1.symm heq
        · obtain ⟨r, hr1, hr2⟩ := ih h1
          refine ⟨r, ?_, List.mem_cons_of_mem _ hr2⟩
          simp only [lookupRule]
          rw [if_neg heq]
          exact hr1

theorem sevOK_getRule_of_mem_keys {s : List (String × Rule)}
    (hsev : ∀ p ∈ s, SevOK p.2) {k : String} (hk : k ∈ keys s) :
    SevOK (getRule s k) := by
  obtain ⟨r, hr1, hr2⟩ := lookup_mem_of_mem_keys hk
  unfold getRule
  rw [hr1]
  exact hsev (k, r) hr2

theorem mem_of_mem_mdAfterErr {s : List (String × Rule)} {p : String × Rule}
    (h : p ∈ mdAfterErr s) : p ∈ s :=
  (List.mem_filter.mp h).1

theorem mem_of_mem_mdAfterExp0 {s : List (String × Rule)} {p : String × Rule}
    (h : p ∈ mdAfterExp0 s) : p ∈ s := by
  unfold mdAfterExp0 at h
  split at h
  · exact mem_of_mem_mdAfterErr (mem_of_mem_eraseKey h)
  · exact mem_of_mem_mdAfterErr h

theorem mem_of_mem_mdAfterPro {s : List (String × Rule)} {p : String × Rule}
    (h : p ∈ mdAfterPro s) : p ∈ s :=
  mem_of_mem_mdAfterExp0 (List.mem_filter.mp h).1

theorem mem_of_mem_mdAfterTra {s : List (String × Rule)} {p : String × Rule}
    (h : p ∈ mdAfterTra s) : p ∈ s :=
  mem_of_mem_mdAfterPro (List.mem_filter.mp h).1

/-! ### Length bounds on the rendered item lists -/

theorem sortStrings_length (l : List String) :
    (sortStrings l).length = l.length :=
  (List.perm_insertionSort _ l).length_eq

theorem mdAfterTra_length_le (s : List (String × Rule)) :
    (mdAfterTra s).length ≤ s.length := by
  have h1 : (mdAfterErr s).length ≤ s.length := List.length_filter_le _ _
  have h2 : (mdAfterExp0 s).length ≤ (mdAfterErr s).length := by
    unfold mdAfterExp0 eraseKey
    split
    · exact List.length_filter_le _ _
    · exact le_refl _
  have h3 : (mdAfterPro s).length ≤ (mdAfterExp0 s).length :=
    List.length_filter_le _ _
  have h4 : (mdAfterTra s).length ≤ (mdAfterPro s).length :=
    List.length_filter_le _ _
  omega

theorem mdIdxItems_length_le (s : List (String × Rule)) :
    (mdIdxItems s).length ≤ s.length := by
  unfold mdIdxItems
  rw [sortStrings_length]
  calc ((keys (mdAfterTra s)).filter (fun k => hasPrefixGo "IDX" k)).length
      ≤ (keys (mdAfterTra s)).length := List.length_filter_le _ _
    _ = (mdAfterTra s).length := by simp [keys]
    _ ≤ s.length := mdAfterTra_length_le s

theorem mdHeuItems_length_le (s : List (String × Rule)) :
    (mdHeuItems s).length ≤ s.length := by
  unfold mdHeuItems
  rw [sortStrings_length]
  calc ((keys (mdAfterTra s)).filter (fun k =>
          !(hasPrefixGo "EXP" k) && !(hasPrefixGo "IDX" k)
            && !(hasPrefixGo "PRO" k))).length
      ≤ (keys (mdAfterTra s)).length := List.length_filter_le _ _
    _ = (mdAfterTra s).length := by simp [keys]
    _ ≤ s.length := mdAfterTra_length_le s

theorem sevOK_idx_keys {s : List (String × Rule)}
    (hsev : ∀ p ∈ s, SevOK p.2) :
    ∀ k ∈ mdIdxItems s, SevOK (getRule (mdAfterTra s) k) := by
  intro k hk
  apply sevOK_getRule_of_mem_keys
    (fun p hp => hsev p (mem_of_mem_mdAfterTra hp))
  unfold mdIdxItems at hk
  rw [mem_sortStrings] at hk
  exact (List.mem_filter.mp hk).1

theorem sevOK_heu_keys {s : List (String × Rule)}
    (hsev : ∀ p ∈ s, SevOK p.2) :
    ∀ k ∈ mdHeuItems s, SevOK (getRule (mdAfterTra s) k) := by
  intro k hk
  apply sevOK_getRule_of_mem_keys
    (fun p hp => hsev p (mem_of_mem_mdAfterTra hp))
  unfold mdHeuItems at hk
  rw [mem_sortStrings] at hk
  exact (List.mem_filter.mp hk).1

/-! ### Markdown/html score folds: with sane severities and a set small
enough that the wrapping 64-bit arithmetic never wraps, each loop only
decreases the score, by at most `45` per item. -/

theorem md_fold_idx_bounds (m : List (String × Rule)) :
    ∀ (ks : List String) (sc : Int),
      (∀ k ∈ ks, SevOK (getRule m k)) →
      -4611686018427387904 + 45 * (ks.length : Int) ≤ sc →
      sc ≤ 9223372036854775807 →
      sc - 45 * (ks.length : Int) ≤ ks.foldl (mdScoreStepIdx m) sc ∧
        ks.foldl (mdScoreStepIdx m) sc ≤ sc := by
  intro ks
  induction ks with
  | nil =>
      intro sc _ _ _
      simp
  | cons k tl ih =>
      intro sc hsev hlo hhi
      obtain ⟨_, _, _, he, hv0, hv9⟩ := hsev k (List.mem_cons_self _ _)
      have hlc : (((k :: tl).length : Nat) : Int) = (tl.length : Int) + 1 := by
        simp
      have htl0 : (0 : Int) ≤ (tl.length : Int) := Int.natCast_nonneg _
      rw [hlc] at hlo ⊢
      simp only [List.foldl_cons]
      have hw1 : wrap64 ((goAtoi (trimChar 'L' (getRule m k).Severity)).1 * 5)
          = (goAtoi (trimChar 'L' (getRule m k).Severity)).1 * 5 :=
        wrap64_id (by omega) (by omega)
      have hw2 : wrap64 (sc - (goAtoi (trimChar 'L' (getRule m k).Severity)).1 * 5)
          = sc - (goAtoi (trimChar 'L' (getRule m k).Severity)).1 * 5 :=
        wrap64_id (by omega) (by omega)
      have hstep : mdScoreStepIdx m sc k
          = sc - (goAtoi (trimChar 'L' (getRule m k).Severity)).1 * 5 := by
        unfold mdScoreStepIdx
        rw [if_pos he, hw1, hw2]
      have hsev2 : ∀ k2 ∈ tl, SevOK (getRule m k2) :=
        fun k2 hk2 => hsev k2 (List.mem_cons_of_mem _ hk2)
      have ih2 := ih (sc - (goAtoi (trimChar 'L' (getRule m k).Severity)).1 * 5)
        hsev2 (by omega) (by omega)
      rw [hstep]
      constructor
      · omega
      · omega

theorem md_fold_heu_bounds (m : List (String × Rule)) :
    ∀ (ks : List String) (sc : Int),
      (∀ k ∈ ks, SevOK (getRule m k)) →
      -4611686018427387904 + 45 * (ks.length : Int) ≤ sc →
      sc ≤ 9223372036854775807 →
      sc - 45 * (ks.length : Int) ≤ ks.foldl (mdScoreStepHeu m) sc ∧
        ks.foldl (mdScoreStepHeu m) sc ≤ sc := by
  intro ks
  induction ks with
  | nil =>
      intro sc _ _ _
      simp
  | cons k tl ih =>
      intro sc hsev hlo hhi
      have hlc : (((k :: tl).length : Nat) : Int) = (tl.length : Int) + 1 := by
        simp
      have htl0 : (0 : Int) ≤ (tl.length : Int) := Int.natCast_nonneg _
      rw [hlc] at hlo ⊢
      simp only [List.foldl_cons]
      have hsev2 : ∀ k2 ∈ tl, SevOK (getRule m k2) :=
        fun k2 hk2 => hsev k2 (List.mem_cons_of_mem _ hk2)
      by_cases hok : (k == "OK") = true
      · have hstep : mdScoreStepHeu m sc k = sc := by
          unfold mdScoreStepHeu
          rw [if_pos hok]
        have ih2 := ih sc hsev2 (by omega) hhi
        rw [hstep]
        constructor
        · omega
        · omega
      · obtain ⟨_, _, _, he, hv0, hv9⟩ := hsev k (List.mem_cons_self _ _)
        have hw1 : wrap64 ((goAtoi (trimChar 'L' (getRule m k).Severity)).1 * 5)
            = (goAtoi (trimChar 'L' (getRule m k).Severity)).1 * 5 :=
          wrap64_id (by omega) (by omega)
        have hw2 : wrap64 (sc - (goAtoi (trimChar 'L' (getRule m k).Severity)).1 * 5)
            = sc - (goAtoi (trimChar 'L' (getRule m k).Severity)).1 * 5 :=
          wrap64_id (by omega) (by omega)
        have hstep : mdScoreStepHeu m sc k
            = sc - (goAtoi (trimChar 'L' (getRule m k).Severity)).1 * 5 := by
          unfold mdScoreStepHeu
          rw [if_neg hok]
          unfold mdScoreStepIdx
          rw [if_pos he, hw1, hw2]
        have ih2 := ih (sc - (goAtoi (trimChar 'L' (getRule m k).Severity)).1 * 5)
          hsev2 (by omega) (by omega)
        rw [hstep]
        constructor
        · omega
        · omega

theorem mdScore_le_base {s : List (String × Rule)}
    (hsev : ∀ p ∈ s, SevOK p.2) (hlen : s.length ≤ 2251799813685248) :
    mdScore s ≤ mdScoreAfterErr s := by
  have hbase : (0 : Int) ≤ mdScoreAfterErr s ∧ mdScoreAfterErr s ≤ 100 := by
    unfold mdScoreAfterErr
    split
    · norm_num
    · norm_num
  have hil := mdIdxItems_length_le s
  have hhl := mdHeuItems_length_le s
  have hb1 := md_fold_idx_bounds (mdAfterTra s) (mdIdxItems s)
    (mdScoreAfterErr s) (sevOK_idx_keys hsev) (by omega) (by omega)
  have hb2 := md_fold_heu_bounds (mdAfterTra s) (mdHeuItems s)
    ((mdIdxItems s).foldl (mdScoreStepIdx (mdAfterTra s)) (mdScoreAfterErr s))
    (sevOK_heu_keys hsev) (by omega) (by omega)
  unfold mdScore
  omega

theorem mdScore_le_100 {s : List (String × Rule)}
    (hsev : ∀ p ∈ s, SevOK p.2) (hlen : s.length ≤ 2251799813685248) :
    mdScore s ≤ 100 := by
  have h := mdScore_le_base hsev hlen
  have hbase : mdScoreAfterErr s ≤ 100 := by
    unfold mdScoreAfterErr
    split
    · norm_num
    · norm_num
  omega

theorem mdErrItems_mem {s : List (String × Rule)} {k : String} {r : Rule}
    (nd : (keys s).Nodup) (hm : (k, r) ∈ s)
    (hpre : hasPrefixGo "ERR" k = true) (hc : r.Content ≠ "") :
    k ∈ mdErrItems s := by
  unfold mdErrItems
  rw [mem_sortStrings]
  apply List.mem_filter.mpr
  refine ⟨mem_keys_of_mem hm, ?_⟩
  rw [hpre, Bool.true_and, getRule_eq_of_mem nd hm]
  exact bne_iff_ne.mpr hc

theorem mdScore_nonpos_of_err {s : List (String × Rule)} {k : String}
    {r : Rule} (nd : (keys s).Nodup) (hm : (k, r) ∈ s)
    (hpre : hasPrefixGo "ERR" k = true) (hc : r.Content ≠ "")
    (hsev : ∀ p ∈ s, SevOK p.2) (hlen : s.length ≤ 2251799813685248) :
    mdScore s ≤ 0 := by
  have h := mdScore_le_base hsev hlen
  have hbase : mdScoreAfterErr s = 0 := by
    unfold mdScoreAfterErr
    rw [if_pos]
    exact List.length_pos.mpr (List.ne_nil_of_mem (mdErrItems_mem nd hm hpre hc))
  omega

/-! ### Score fold of `formatJSON` under the same no-wrap conditions -/

theorem json_fold_le :
    ∀ (l : List (String × Rule)) (sc B : Int),
      (∀ p ∈ l, SevOK p.2) → 0 ≤ B → B ≤ 9223372036854775807 → sc ≤ B →
      -4611686018427387904 + 45 * (l.length : Int) ≤ sc →
      45 * (l.length : Int) ≤ 4611686018427387904 →
      l.foldl jsonScoreStep sc ≤ B := by
  intro l
  induction l with
  | nil =>
      intro sc B _ _ _ h _ _
      simpa using h
  | cons p tl ih =>
      intro sc B hsev hB0 hBmax hscB hlo hbud
      have hlc : (((p :: tl).length : Nat) : Int) = (tl.length : Int) + 1 := by
        simp
      have htl0 : (0 : Int) ≤ (tl.length : Int) := Int.natCast_nonneg _
      rw [hlc] at hlo hbud
      simp only [List.foldl_cons]
      have hsev2 : ∀ q ∈ tl, SevOK q.2 :=
        fun q hq => hsev q (List.mem_cons_of_mem _ hq)
      obtain ⟨he, hv0, hv9, _, _, _⟩ := hsev p (List.mem_cons_self _ _)
      by_cases hf : (hasPrefixGo "ERR" p.1 && p.2.Content != "") = true
      · have hstep : jsonScoreStep sc p = 0 := by
          simp only [jsonScoreStep]
          rw [if_pos hf]
        rw [hstep]
        exact ih 0 B hsev2 hB0 hBmax hB0 (by omega) (by omega)
      · have hw1 : wrap64 ((goAtoi (trimLeftChar 'L' p.2.Severity)).1 * 5)
            = (goAtoi (trimLeftChar 'L' p.2.Severity)).1 * 5 :=
          wrap64_id (by omega) (by omega)
        have hw2 : wrap64 (sc - (goAtoi (trimLeftChar 'L' p.2.Severity)).1 * 5)
            = sc - (goAtoi (trimLeftChar 'L' p.2.Severity)).1 * 5 :=
          wrap64_id (by omega) (by omega)
        have hstep : jsonScoreStep sc p
            = sc - (goAtoi (trimLeftChar 'L' p.2.Severity)).1 * 5 := by
          simp only [jsonScoreStep]
          rw [if_neg hf, hw1, hw2]
        rw [hstep]
        exact ih (sc - (goAtoi (trimLeftChar 'L' p.2.Severity)).1 * 5) B hsev2
          hB0 hBmax (by omega) (by omega) (by omega)

theorem jsonScoreRaw_le_100 {s : List (String × Rule)}
    (hsev : ∀ p ∈ s, SevOK p.2) (hlen : s.length ≤ 2251799813685248) :
    jsonScoreRaw s ≤ 100 :=
  json_fold_le s 100 100 hsev (by norm_num) (by norm_num) (le_refl 100)
    (by omega) (by omega)

theorem jsonScore_nonneg (s : List (String × Rule)) : 0 ≤ jsonScore s := by
  unfold jsonScore
  split
  · exact le_refl 0
  · omega

theorem jsonScore_le_100 {s : List (String × Rule)}
    (hsev : ∀ p ∈ s, SevOK p.2) (hlen : s.length ≤ 2251799813685248) :
    jsonScore s ≤ 100 := by
  unfold jsonScore
  split
  · norm_num
  · exact jsonScoreRaw_le_100 hsev hlen

theorem jsonScoreRaw_nonpos_of_err {s : List (String × Rule)} {k : String}
    {r : Rule} (hm : (k, r) ∈ s) (hpre : hasPrefixGo "ERR" k = true)
    (hc : r.Content ≠ "") (hsev : ∀ p ∈ s, SevOK p.2)
    (hlen : s.length ≤ 2251799813685248) :
    jsonScoreRaw s ≤ 0 := by
  obtain ⟨u, v, rfl⟩ := List.append_of_mem hm
  rw [List.length_append, List.length_cons] at hlen
  unfold jsonScoreRaw
  rw [List.foldl_append, List.foldl_cons]
  have hstep : jsonScoreStep (List.foldl jsonScoreStep 100 u) (k, r) = 0 := by
    simp only [jsonScoreStep]
    rw [if_pos]
    rw [hpre, Bool.true_and]
    exact bne_iff_ne.mpr hc
  rw [hstep]
  exact json_fold_le v 0 0
    (fun q hq => hsev q (List.mem_append.mpr (Or.inr (List.mem_cons_of_mem _ hq))))
    (le_refl 0) (by norm_num) (le_refl 0) (by omega) (by omega)

theorem jsonScore_eq_zero_of_err {s : List (String × Rule)} {k : String}
    {r : Rule} (hm : (k, r) ∈ s) (hpre : hasPrefixGo "ERR" k = true)
    (hc : r.Content ≠ "") (hsev : ∀ p ∈ s, SevOK p.2)
    (hlen : s.length ≤ 2251799813685248) :
    jsonScore s = 0 := by
  have hraw := jsonScoreRaw_nonpos_of_err hm hpre hc hsev hlen
  unfold jsonScore
  split
  · rfl
  · omega

/-! ### C1: score forcing by ERR verdicts -/

/-- Fixture: an ERR verdict with non-empty content. -/
def errR : Rule :=
  ⟨"ERR.001", "L8", "", "syntax error", "", 0, none⟩

/-- Fixture: heuristic verdict of severity L8. -/
def colA : Rule := ⟨"COL.001", "L8", "s", "c", "", 0, none⟩

/-- Fixture: heuristic verdict of severity L8. -/
def colB : Rule := ⟨"COL.002", "L8", "s", "c", "", 0, none⟩

/-- Fixture: heuristic verdict of severity L8. -/
def colC : Rule := ⟨"COL.003", "L8", "s", "c", "", 0, none⟩

/-- Fixture: heuristic verdict whose severity parses to a negative value. -/
def colNeg : Rule := ⟨"COL.001", "L-1", "s", "c", "", 0, none⟩

/-- Fixture: heuristic verdict whose severity parses without error to
`2305843009213693952 = 2^61`, whose `×5` deduction overflows `int64` and
wraps negative. -/
def colWrap : Rule :=
  ⟨"COL.001", "L2305843009213693952", "s", "c", "", 0, none⟩

/-- Fixture: heuristic verdict whose severity digits exceed the `int64`
range, so `strconv.Atoi` fails with a range error and returns the clamped
`MaxInt64`. -/
def colBig : Rule :=
  ⟨"COL.001", "L99999999999999999999", "s", "c", "", 0, none⟩

/-- C1 (counterexample): with an `ERR` verdict of non-empty content
present, the markdown/html path hands `-80` — not `0` — to the score line
when two further L8 heuristic verdicts are present (the forced `0` is
still decremented by later sections and never re-clamped); the JSON score
is `5` — not `0` — when the severity of another verdict parses negative,
and `6917529027641081856` — not `0` — when another verdict has the
in-range severity ordinal `2^61`, whose `×5` deduction wraps the 64-bit
`int` negative and is then subtracted from the forced `0`. -/
theorem C1_counterexample :
    mdScore [("ERR.001", errR), ("COL.001", colA), ("COL.002", colB)] = -80
    ∧ jsonScore [("ERR.001", errR), ("COL.001", colNeg)] = 5
    ∧ jsonScore [("ERR.001", errR), ("COL.001", colWrap)]
        = 6917529027641081856 := by
  refine ⟨by decide, by decide, by decide⟩

/-- C1 (amended): assume every severity parses without `Atoi` error to a
single-digit ordinal (as every catalog severity does) and the verdict set
is small enough that the 64-bit deductions cannot wrap.  If the verdict
set contains an `ERR`-prefixed item with non-empty `Content`, then the
`Score` field computed by `formatJSON` is exactly `0`, while the score
value the markdown/html path of `FormatSuggest` hands to the rendered
score line is at most `0` (it is `0` minus the deductions of the later
index/heuristic sections; no bottom clamp is applied), not exactly `0` as
claimed. -/
theorem C1_err_forcing (s : List (String × Rule)) (k : String) (r : Rule)
    (nd : (keys s).Nodup) (hm : (k, r) ∈ s)
    (hpre : hasPrefixGo "ERR" k = true) (hc : r.Content ≠ "")
    (hsev : ∀ p ∈ s, SevOK p.2) (hlen : s.length ≤ 1125899906842624) :
    jsonScore s = 0 ∧ mdScore s ≤ 0 :=
  ⟨jsonScore_eq_zero_of_err hm hpre hc hsev (by omega),
   mdScore_nonpos_of_err nd hm hpre hc hsev (by omega)⟩

theorem C1_witness :
    jsonScore [("ERR.001", errR)] = 0 ∧ mdScore [("ERR.001", errR)] ≤ 0 :=
  C1_err_forcing [("ERR.001", errR)] "ERR.001" errR (by decide) (by decide)
    (by decide) (by decide) (by decide) (by decide)

/-! ### C2: score bounds -/

/-- C2 (counterexample): the markdown/html path hands `-20` to the score
line for three L8 heuristic verdicts (no bottom clamp); `formatJSON`
computes `105` for a verdict whose severity string parses to `-1` (no top
clamp) and `6917529027641081956` for a verdict with the in-range severity
ordinal `2^61`, whose `×5` deduction wraps the 64-bit `int` negative — so
the claimed `[0,100]` bounds fail as stated. -/
theorem C2_counterexample :
    mdScore [("COL.001", colA), ("COL.002", colB), ("COL.003", colC)] = -20
    ∧ jsonScore [("COL.001", colNeg)] = 105
    ∧ jsonScore [("COL.001", colWrap)] = 6917529027641081956 := by
  refine ⟨by decide, by decide, by decide⟩

/-- C2 (amended): provided every severity parses without `Atoi` error to a
single-digit ordinal and the verdict set is small enough that the 64-bit
deductions cannot wrap, the `Score` field computed by `formatJSON` is
between `0` and `100`, and the markdown/html score value is at most `100`
— but it has no bottom clamp and can be negative. -/
theorem C2_score_bounds (s : List (String × Rule))
    (hsev : ∀ p ∈ s, SevOK p.2) (hlen : s.length ≤ 1125899906842624) :
    0 ≤ jsonScore s ∧ jsonScore s ≤ 100 ∧ mdScore s ≤ 100 :=
  ⟨jsonScore_nonneg s, jsonScore_le_100 hsev (by omega),
   mdScore_le_100 hsev (by omega)⟩

theorem C2_witness :
    0 ≤ jsonScore [("COL.001", colA)] ∧
    jsonScore [("COL.001", colA)] ≤ 100 ∧
    mdScore [("COL.001", colA)] ≤ 100 :=
  C2_score_bounds [("COL.001", colA)] (by decide) (by decide)

/-! ### C3: severity strings Atoi cannot parse -/

/-- Fixture: heuristic verdict with a syntactically unparseable severity
string. -/
def colLX : Rule := ⟨"COL.001", "LX", "s", "c", "", 0, none⟩

/-- C3 (counterexample): for the single verdict `COL.001` with severity
`"LX"` (a syntax error), the markdown/html score is `0`, not the `100`
that "a deduction of 0 that does not otherwise change the score" would
give — the markdown loops force the score to `0` on any `Atoi` error;
and for severity `"L99999999999999999999"` (an `Atoi` range error, also a
failure covered by the claim) the `formatJSON` score is `0`, not `100` —
the loop ignores the error and deducts `5×` the clamped `MaxInt64` in
wrapping arithmetic, driving the raw score far below the bottom clamp. -/
theorem C3_counterexample :
    mdScore [("COL.001", colLX)] = 0
    ∧ jsonScore [("COL.001", colLX)] = 100
    ∧ mdScore [("COL.001", colBig)] = 0
    ∧ jsonScore [("COL.001", colBig)] = 0
    ∧ (0 : Int) ≠ 100 := by
  refine ⟨by decide, by decide, by decide, by decide, by decide⟩

/-- C3 (amended): in the markdown/html index and heuristic loops of
`FormatSuggest`, a verdict whose severity fails `Atoi` — with a syntax
error or a range error — forces the running score to `0` (it does not
contribute a deduction of `0`); in the score loop of `formatJSON` the
error is ignored and `5×` the returned value is deducted regardless: for
a syntax error that value is `0`, so the score is unchanged as claimed,
but for a range error it is the clamped `MaxInt64`, whose wrapped `×5`
deduction changes the score drastically — concretely, one such verdict
turns a running score of `100` into `-9223372036854775703`.  Rendering
completes in every case. -/
theorem C3_malformed_severity :
    (∀ (m : List (String × Rule)) (sc : Int) (k : String),
       (goAtoi (trimChar 'L' (getRule m k).Severity)).2 = true →
         mdScoreStepIdx m sc k = 0)
    ∧ (∀ (m : List (String × Rule)) (sc : Int) (k : String), k ≠ "OK" →
       (goAtoi (trimChar 'L' (getRule m k).Severity)).2 = true →
         mdScoreStepHeu m sc k = 0)
    ∧ (∀ (sc : Int) (k : String) (r : Rule),
       -9223372036854775808 ≤ sc → sc ≤ 9223372036854775807 →
       (hasPrefixGo "ERR" k && r.Content != "") = false →
       goAtoi (trimLeftChar 'L' r.Severity) = (0, true) →
       jsonScoreStep sc (k, r) = sc)
    ∧ jsonScoreStep 100 ("COL.001", colBig) = -9223372036854775703 := by
  have hidx : ∀ (m : List (String × Rule)) (sc : Int) (k : String),
      (goAtoi (trimChar 'L' (getRule m k).Severity)).2 = true →
        mdScoreStepIdx m sc k = 0 := by
    intro m sc k h
    have hne : ¬((goAtoi (trimChar 'L' (getRule m k).Severity)).2 = false) := by
      simp [h]
    unfold mdScoreStepIdx
    rw [if_neg hne]
  refine ⟨hidx, ?_, ?_, by decide⟩
  · intro m sc k hk h
    unfold mdScoreStepHeu
    rw [if_neg (by simpa using hk)]
    exact hidx m sc k h
  · intro sc k r h1 h2 hno hAtoi
    have hcond : ¬((hasPrefixGo "ERR" k && r.Content != "") = true) := by
      simp [hno]
    simp only [jsonScoreStep]
    rw [if_neg hcond, hAtoi]
    show wrap64 (sc - wrap64 (0 * 5)) = sc
    have h0 : wrap64 ((0 : Int) * 5) = 0 := by decide
    rw [h0, sub_zero]
    exact wrap64_id h1 h2

theorem C3_witness :
    mdScoreStepIdx [("COL.001", colLX)] 50 "COL.001" = 0
    ∧ mdScoreStepHeu [("COL.001", colLX)] 50 "COL.001" = 0
    ∧ jsonScoreStep 77 ("COL.001", colLX) = 77 :=
  ⟨C3_malformed_severity.1 [("COL.001", colLX)] 50 "COL.001" (by decide),
   C3_malformed_severity.2.1 [("COL.001", colLX)] 50 "COL.001" (by decide)
     (by decide),
   C3_malformed_severity.2.2.1 77 "COL.001" colLX (by decide) (by decide)
     (by decide) (by decide)⟩

/-! ### Branch lemmas for `FormatSuggest` -/

theorem FormatSuggest_markdown (ext : Externals) (cfg : Config)
    (table : List (String × String)) (sql db : String)
    (suggests : List (List (String × Rule))) :
    FormatSuggest ext cfg table sql db "markdown" suggests =
      ((mdRender ext cfg "markdown" sql
          (if sql != "" then ext.Id (ext.Fingerprint sql) else "")
          (if sql != "" then ext.Fingerprint sql else "")
          (normalizeSuggest cfg
            (MergeConflictHeuristicRules table (mergeSuggests suggests)))).rest,
       assembleStr ext cfg
         (mdRender ext cfg "markdown" sql
           (if sql != "" then ext.Id (ext.Fingerprint sql) else "")
           (if sql != "" then ext.Fingerprint sql else "")
           (normalizeSuggest cfg
             (MergeConflictHeuristicRules table (mergeSuggests suggests)))).buf
         (mdRender ext cfg "markdown" sql
           (if sql != "" then ext.Id (ext.Fingerprint sql) else "")
           (if sql != "" then ext.Fingerprint sql else "")
           (normalizeSuggest cfg
             (MergeConflictHeuristicRules table (mergeSuggests suggests)))).score) :=
  rfl

theorem FormatSuggest_html (ext : Externals) (cfg : Config)
    (table : List (String × String)) (sql db : String)
    (suggests : List (List (String × Rule))) :
    FormatSuggest ext cfg table sql db "html" suggests =
      ((mdRender ext cfg "html" sql
          (if sql != "" then ext.Id (ext.Fingerprint sql) else "")
          (if sql != "" then ext.Fingerprint sql else "")
          (normalizeSuggest cfg
            (MergeConflictHeuristicRules table (mergeSuggests suggests)))).rest,
       assembleStr ext cfg
         (mdRender ext cfg "html" sql
           (if sql != "" then ext.Id (ext.Fingerprint sql) else "")
           (if sql != "" then ext.Fingerprint sql else "")
           (normalizeSuggest cfg
             (MergeConflictHeuristicRules table (mergeSuggests suggests)))).buf
         (mdRender ext cfg "html" sql
           (if sql != "" then ext.Id (ext.Fingerprint sql) else "")
           (if sql != "" then ext.Fingerprint sql else "")
           (normalizeSuggest cfg
             (MergeConflictHeuristicRules table (mergeSuggests suggests)))).score) :=
  rfl

theorem FormatSuggest_json_branch (ext : Externals) (cfg : Config)
    (table : List (String × String)) (sql db : String)
    (suggests : List (List (String × Rule))) :
    FormatSuggest ext cfg table sql db "json" suggests =
      (normalizeSuggest cfg
         (MergeConflictHeuristicRules table (mergeSuggests suggests)),
       assembleStr ext cfg
         [formatJSON ext sql db
           (normalizeSuggest cfg
             (MergeConflictHeuristicRules table (mergeSuggests suggests)))]
         100) :=
  rfl

/-! ### C6: sentinel OK normalization -/

/-- The `OK` sentinel rule of the catalog. -/
def okRule : Rule := ⟨"OK", "L0", "OK", "OK", "OK", 0, some "RuleOK"⟩

theorem getRule_catalog_OK (cfg : Config) :
    getRule (HeuristicRules cfg) "OK" = okRule := rfl

theorem normalize_empty (cfg : Config) (hir : cfg.IgnoreRules = []) :
    normalizeSuggest cfg [] = [("OK", okRule)] := by
  simp only [normalizeSuggest, ignoreOKFlag, hir, List.any_nil,
    getRule_catalog_OK]
  rw [if_pos (by norm_num : ([] : List (String × Rule)).length < 1)]
  rw [if_neg (by simp : ¬(false = true ∨
    1 < ([("OK", okRule)] : List (String × Rule)).length))]
  simp [IsIgnoreRule, hir]

theorem normalize_no_ok {cfg : Config} {merged : List (String × Rule)}
    (hlen : 1 < merged.length) :
    "OK" ∉ keys (normalizeSuggest cfg merged) := by
  intro hmem
  simp only [normalizeSuggest] at hmem
  rw [if_neg (by omega : ¬ merged.length < 1)] at hmem
  rw [if_pos (Or.inr hlen)] at hmem
  obtain ⟨p, hp, hpk⟩ := List.mem_map.mp hmem
  have hp2 : p ∈ eraseKey merged "OK" := (List.mem_filter.mp hp).1
  have hne := (List.mem_filter.mp hp2).2
  rw [hpk] at hne
  simp at hne

theorem normalize_ignore_ok {cfg : Config} (hflag : ignoreOKFlag cfg = true)
    (s : List (String × Rule)) : "OK" ∉ keys (normalizeSuggest cfg s) := by
  intro hmem
  simp only [normalizeSuggest] at hmem
  rw [if_pos (Or.inl hflag)] at hmem
  obtain ⟨p, hp, hpk⟩ := List.mem_map.mp hmem
  have hp2 := (List.mem_filter.mp hp).1
  have hne := (List.mem_filter.mp hp2).2
  rw [hpk] at hne
  simp at hne

theorem mem_keys_of_mem_keys_mdAfterTra {s : List (String × Rule)}
    {k : String} (h : k ∈ keys (mdAfterTra s)) : k ∈ keys s := by
  obtain ⟨p, hp, rfl⟩ := List.mem_map.mp h
  exact mem_keys_of_mem (mem_of_mem_mdAfterTra hp)

theorem mdHeuItems_subset_keys {s : List (String × Rule)} {k : String}
    (h : k ∈ mdHeuItems s) : k ∈ keys s := by
  unfold mdHeuItems at h
  rw [mem_sortStrings] at h
  exact mem_keys_of_mem_keys_mdAfterTra (List.mem_filter.mp h).1

theorem mdRender_ok_singleton (ext : Externals) (cfg : Config)
    (sql id fp : String) (hex : cfg.ExplainSQLReportType = "sample")
    (hsql : sql ≠ "") :
    mdRender ext cfg "markdown" sql id fp [("OK", okRule)] =
      ⟨["# Query: " ++ id ++ "\n", "```sql\n" ++ sql ++ "\n```\n", "## OK\n"],
       100, [("OK", okRule)]⟩ := by
  have hh : mdHeader ext cfg "markdown" sql id fp [("OK", okRule)] =
      ["# Query: " ++ id ++ "\n", "```sql\n" ++ sql ++ "\n```\n"] := by
    unfold mdHeader
    rw [if_pos ⟨hsql, by norm_num⟩, hex]
    rfl
  simp only [mdRender, hh]
  rfl

/-- C6 (confirmed): (a) for an empty merged verdict set (and an empty
ignore configuration) the pre-render normalization yields exactly the
sentinel `OK` verdict; (b) whenever the merged set has more than one
entry the `OK` entry is removed before rendering — it appears neither
among the normalized keys nor among the items of the heuristic section, for
every configuration; (c) whenever the ignore configuration lists `"OK"`
verbatim the `OK` entry is likewise removed before rendering, for every
merged set — also from a singleton set, and even from the sentinel just
synthesized for an empty set; (d) rendering an empty verdict set in the
markdown format (with the markdown report type and sample display mode)
produces the document consisting of the query header, the score line at
`100`, and exactly the single `OK` section. -/
theorem C6_ok_handling :
    (∀ cfg : Config, cfg.IgnoreRules = [] →
       normalizeSuggest cfg [] = [("OK", okRule)])
    ∧ (∀ (cfg : Config) (merged : List (String × Rule)), 1 < merged.length →
       "OK" ∉ keys (normalizeSuggest cfg merged)
         ∧ "OK" ∉ mdHeuItems (normalizeSuggest cfg merged))
    ∧ (∀ (cfg : Config) (merged : List (String × Rule)),
       ignoreOKFlag cfg = true →
       "OK" ∉ keys (normalizeSuggest cfg merged))
    ∧ (∀ (ext : Externals) (cfg : Config) (table : List (String × String))
         (sql db : String), cfg.IgnoreRules = [] →
         cfg.ReportType = "markdown" → cfg.ExplainSQLReportType = "sample" →
         sql ≠ "" →
       FormatSuggest ext cfg table sql db "markdown" [] =
         ([("OK", okRule)],
          ("# Query: " ++ ext.Id (ext.Fingerprint sql) ++ "\n") ++ "\n"
            ++ ext.ScoreStr 100 ++ "\n\n"
            ++ String.intercalate "\n"
                ["```sql\n" ++ sql ++ "\n```\n", "## OK\n"])) := by
  refine ⟨normalize_empty, ?_, ?_, ?_⟩
  · intro cfg merged hlen
    refine ⟨normalize_no_ok hlen, ?_⟩
    intro hmem
    exact normalize_no_ok hlen (mdHeuItems_subset_keys hmem)
  · intro cfg merged hflag
    exact normalize_ignore_ok hflag merged
  · intro ext cfg table sql db hir hrt hex hsql
    have hbne : (sql != "") = true := bne_iff_ne.mpr hsql
    rw [FormatSuggest_markdown]
    have hn : normalizeSuggest cfg
        (MergeConflictHeuristicRules table (mergeSuggests [])) =
        [("OK", okRule)] := by
      show normalizeSuggest cfg [] = _
      exact normalize_empty cfg hir
    rw [hn, if_pos hbne, if_pos hbne]
    rw [mdRender_ok_singleton ext cfg sql (ext.Id (ext.Fingerprint sql))
      (ext.Fingerprint sql) hex hsql]
    simp only [assembleStr, hrt]
    rfl

theorem C6_witness :
    normalizeSuggest baseConfig [] = [("OK", okRule)] ∧
    "OK" ∉ keys (normalizeSuggest baseConfig
      [("COL.001", colA), ("OK", okRule)]) ∧
    "OK" ∉ keys (normalizeSuggest cfgOKpat [("OK", okRule)]) := by
  refine ⟨?_, ?_, ?_⟩
  · exact C6_ok_handling.1 baseConfig rfl
  · exact (C6_ok_handling.2.1 baseConfig [("COL.001", colA), ("OK", okRule)]
      (by norm_num)).1
  · exact C6_ok_handling.2.2.1 cfgOKpat [("OK", okRule)] (by decide)

/-! ### C8: the JSON partition -/

theorem getRule_item_of_mem_keys {s : List (String × Rule)} {k : String}
    (nd : (keys s).Nodup) (hitems : ∀ p ∈ s, p.2.Item = p.1)
    (hk : k ∈ keys s) : (getRule s k).Item = k := by
  obtain ⟨p, hp, rfl⟩ := List.mem_map.mp hk
  rw [getRule_eq_of_mem nd hp]
  exact hitems p hp

theorem mem_map_getRule_sortStrings {s : List (String × Rule)}
    {pred : String → Bool} {r : Rule} (nd : (keys s).Nodup)
    (hitems : ∀ p ∈ s, p.2.Item = p.1) :
    r ∈ (sortStrings ((keys s).filter pred)).map (getRule s) ↔
      r ∈ s.map Prod.snd ∧ pred r.Item = true := by
  constructor
  · intro hr
    obtain ⟨k, hk, rfl⟩ := List.mem_map.mp hr
    rw [mem_sortStrings] at hk
    obtain ⟨hkk, hpk⟩ := List.mem_filter.mp hk
    obtain ⟨p, hp, rfl⟩ := List.mem_map.mp hkk
    rw [getRule_eq_of_mem nd hp]
    refine ⟨List.mem_map.mpr ⟨p, hp, rfl⟩, ?_⟩
    rw [hitems p hp]
    exact hpk
  · rintro ⟨hr, hpred⟩
    obtain ⟨p, hp, rfl⟩ := List.mem_map.mp hr
    apply List.mem_map.mpr
    refine ⟨p.1, ?_, getRule_eq_of_mem nd hp⟩
    rw [mem_sortStrings]
    apply List.mem_filter.mpr
    refine ⟨mem_keys_of_mem hp, ?_⟩
    rw [← hitems p hp]
    exact hpred

theorem pairwise_map_getRule_sortStrings {s : List (String × Rule)}
    {pred : String → Bool} (nd : (keys s).Nodup)
    (hitems : ∀ p ∈ s, p.2.Item = p.1) :
    ((sortStrings ((keys s).filter pred)).map (getRule s)).Pairwise
      (fun a b => strLe a.Item b.Item = true) := by
  rw [List.pairwise_map]
  apply List.Pairwise.imp_of_mem ?_ (sortStrings_sorted ((keys s).filter pred))
  intro a b ha hb hab
  have hka : a ∈ keys s :=
    (List.mem_filter.mp (mem_sortStrings.mp ha)).1
  have hkb : b ∈ keys s :=
    (List.mem_filter.mp (mem_sortStrings.mp hb)).1
  rw [getRule_item_of_mem_keys nd hitems hka,
    getRule_item_of_mem_keys nd hitems hkb]
  exact hab

/-- Fixture: index-advisor verdict `IDX.003`. -/
def idxR : Rule := ⟨"IDX.003", "L2", "si", "ci", "", 0, none⟩

/-- C8 (confirmed): for a consistent verdict set (keys unique, each
`Item` of each verdict equal to its key) the JSON document partitions the
verdicts into `Explain` (exactly the `EXP`-prefixed ones), `IndexRules`
(exactly the `IDX`-prefixed ones) and `HeuristicRules` (all others except
`ERR`-prefixed verdicts with empty `Content`), each array sorted in
ascending lexical order of `Item`; in particular for the set
`{IDX.003, COL.001}` the `IndexRules` array is exactly `[IDX.003]` and
`HeuristicRules` exactly `[COL.001]`. -/
theorem C8_json_partition (ext : Externals) (sql db : String)
    (s : List (String × Rule)) (nd : (keys s).Nodup)
    (hitems : ∀ p ∈ s, p.2.Item = p.1) :
    (∀ r, r ∈ (formatJSONDoc ext sql db s).Explain ↔
        r ∈ s.map Prod.snd ∧ hasPrefixGo "EXP" r.Item = true)
    ∧ (∀ r, r ∈ (formatJSONDoc ext sql db s).IndexRules ↔
        r ∈ s.map Prod.snd ∧ hasPrefixGo "IDX" r.Item = true)
    ∧ (∀ r, r ∈ (formatJSONDoc ext sql db s).HeuristicRules ↔
        r ∈ s.map Prod.snd ∧ (!hasPrefixGo "EXP" r.Item
          && !hasPrefixGo "IDX" r.Item
          && !(hasPrefixGo "ERR" r.Item && r.Content == "")) = true)
    ∧ (formatJSONDoc ext sql db s).Explain.Pairwise
        (fun a b => strLe a.Item b.Item = true)
    ∧ (formatJSONDoc ext sql db s).IndexRules.Pairwise
        (fun a b => strLe a.Item b.Item = true)
    ∧ (formatJSONDoc ext sql db s).HeuristicRules.Pairwise
        (fun a b => strLe a.Item b.Item = true)
    ∧ (formatJSONDoc ext sql db
        [("IDX.003", idxR), ("COL.001", colA)]).IndexRules = [idxR]
    ∧ (formatJSONDoc ext sql db
        [("IDX.003", idxR), ("COL.001", colA)]).HeuristicRules = [colA]
    ∧ (formatJSONDoc ext sql db
        [("IDX.003", idxR), ("COL.001", colA)]).Explain = [] := by
  refine ⟨?_, ?_, ?_, ?_, ?_, ?_, rfl, rfl, rfl⟩
  · intro r
    exact mem_map_getRule_sortStrings nd hitems
  · intro r
    exact mem_map_getRule_sortStrings nd hitems
  · intro r
    constructor
    · intro hr
      have h := (mem_map_getRule_sortStrings nd hitems).mp hr
      obtain ⟨hv, hpred⟩ := h
      refine ⟨hv, ?_⟩
      obtain ⟨p, hp, rfl⟩ := List.mem_map.mp hv
      rw [hitems p hp] at hpred ⊢
      rw [getRule_eq_of_mem nd hp] at hpred
      exact hpred
    · rintro ⟨hv, hpred⟩
      apply (mem_map_getRule_sortStrings nd hitems).mpr
      refine ⟨hv, ?_⟩
      obtain ⟨p, hp, rfl⟩ := List.mem_map.mp hv
      rw [hitems p hp]
      rw [getRule_eq_of_mem nd hp]
      rw [← hitems p hp]
      exact hpred
  · exact pairwise_map_getRule_sortStrings nd hitems
  · exact pairwise_map_getRule_sortStrings nd hitems
  · exact pairwise_map_getRule_sortStrings nd hitems

theorem C8_witness :
    idxR ∈ (formatJSONDoc extDummy "q" "db"
      [("IDX.003", idxR), ("COL.001", colA)]).IndexRules :=
  ((C8_json_partition extDummy "q" "db"
      [("IDX.003", idxR), ("COL.001", colA)] (by decide) (by decide)).2.1
    idxR).mpr ⟨by decide, by decide⟩

/-! ### C5: iteration-order (in)dependence of the renderer -/

theorem sortStrings_filter_perm {n1 n2 : List (String × Rule)}
    (h : n1.Perm n2) {p1 p2 : String → Bool} (hp : ∀ k, p1 k = p2 k) :
    sortStrings ((keys n1).filter p1) = sortStrings ((keys n2).filter p2) := by
  rw [List.filter_congr (fun k _ => hp k)]
  exact sortStrings_eq_of_perm ((keys_perm h).filter p2)

theorem foldl_insert_append :
    ∀ (s acc : List (String × Rule)), (keys s).Nodup →
      (∀ k ∈ keys s, k ∉ keys acc) →
      s.foldl (fun a p => insertRule a p.1 p.2) acc = acc ++ s := by
  intro s
  induction s with
  | nil => intro acc _ _; simp
  | cons hd tl ih =>
      intro acc nd hdisj
      rw [keys_cons] at nd
      have nd' := List.nodup_cons.mp nd
      simp only [List.foldl_cons]
      have hf : eraseKey acc hd.1 = acc := by
        unfold eraseKey
        apply List.filter_eq_self.mpr
        intro p hp
        apply bne_iff_ne.mpr
        intro hcontra
        exact hdisj hd.1 (List.mem_cons_self _ _) (hcontra ▸ mem_keys_of_mem hp)
      have he : insertRule acc hd.1 hd.2 = acc ++ [hd] := by
        unfold insertRule
        rw [hf]
      have hdisj2 : ∀ k ∈ keys tl, k ∉ keys (acc ++ [hd]) := by
        intro k hk hmem
        rw [keys, List.map_append] at hmem
        rcases List.mem_append.mp hmem with hmem2 | hmem2
        · exact hdisj k (List.mem_cons_of_mem _ hk) hmem2
        · have hkhd : k = hd.1 := by simpa using hmem2
          exact nd'.1 (hkhd ▸ hk)
      rw [he, ih (acc ++ [hd]) nd'.2 hdisj2]
      simp

theorem mergeSuggests_singleton {s : List (String × Rule)}
    (nd : (keys s).Nodup) : mergeSuggests [s] = s := by
  unfold mergeSuggests
  simp only [List.foldl_cons, List.foldl_nil]
  have h := foldl_insert_append s [] nd (by intro k _ hmem; cases hmem)
  simpa using h

theorem normalize_perm {cfg : Config} {s1 s2 : List (String × Rule)}
    (h : s1.Perm s2) :
    (normalizeSuggest cfg s1).Perm (normalizeSuggest cfg s2) := by
  by_cases h0 : s1.length < 1
  · have e1 : s1 = [] := List.length_eq_zero.mp (by omega)
    have e2 : s2 = [] := List.length_eq_zero.mp (by
      rw [← h.length_eq]
      omega)
    rw [e1, e2]
  · have h02 : ¬ s2.length < 1 := by
      rw [← h.length_eq]
      exact h0
    simp only [normalizeSuggest]
    rw [if_neg h0, if_neg h02]
    by_cases h1 : ignoreOKFlag cfg = true ∨ 1 < s1.length
    · have h12 : ignoreOKFlag cfg = true ∨ 1 < s2.length := by
        rcases h1 with h1 | h1
        · exact Or.inl h1
        · exact Or.inr (h.length_eq ▸ h1)
      rw [if_pos h1, if_pos h12]
      exact (h.filter _).filter _
    · have h12 : ¬(ignoreOKFlag cfg = true ∨ 1 < s2.length) := by
        intro hc
        rcases hc with hc | hc
        · exact h1 (Or.inl hc)
        · exact h1 (Or.inr (h.length_eq ▸ hc))
      rw [if_neg h1, if_neg h12]
      exact h.filter _

theorem normalize_keys_nodup {cfg : Config} {s : List (String × Rule)}
    (nd : (keys s).Nodup) : (keys (normalizeSuggest cfg s)).Nodup := by
  unfold normalizeSuggest
  apply keys_nodup_filter
  by_cases h0 : s.length < 1
  · rw [if_pos h0]
    split
    · exact keys_nodup_eraseKey _ (by simp [keys])
    · simp [keys]
  · rw [if_neg h0]
    split
    · exact keys_nodup_eraseKey _ nd
    · exact nd

theorem sevOK_mem_normalize {cfg : Config} {s : List (String × Rule)}
    (h : ∀ p ∈ s, SevOK p.2) :
    ∀ p ∈ normalizeSuggest cfg s, SevOK p.2 := by
  intro p hp
  unfold normalizeSuggest at hp
  have hp1 := (List.mem_filter.mp hp).1
  by_cases h0 : s.length < 1
  · rw [if_pos h0] at hp1
    have hOK : ∀ q ∈ [("OK", getRule (HeuristicRules cfg) "OK")], SevOK q.2 := by
      intro q hq
      rw [List.mem_singleton] at hq
      rw [hq, getRule_catalog_OK]
      decide
    split at hp1
    · exact hOK p (mem_of_mem_eraseKey hp1)
    · exact hOK p hp1
  · rw [if_neg h0] at hp1
    split at hp1
    · exact h p (mem_of_mem_eraseKey hp1)
    · exact h p hp1

theorem sevOK_mem_mergeConflict {table : List (String × String)}
    {s : List (String × Rule)} (h : ∀ p ∈ s, SevOK p.2) :
    ∀ p ∈ MergeConflictHeuristicRules table s, SevOK p.2 := by
  intro p hp
  exact h p (List.mem_filter.mp hp).1

/-! The markdown/html buffer and score are invariant under permutation of
the verdict map. -/

theorem mdScore_perm {n1 n2 : List (String × Rule)} (h : n1.Perm n2)
    (nd : (keys n1).Nodup) : mdScore n1 = mdScore n2 := by
  have hA : (mdAfterErr n1).Perm (mdAfterErr n2) := h.filter _
  have ndA : (keys (mdAfterErr n1)).Nodup := keys_nodup_filter _ nd
  have hget0 := getRule_perm h nd
  have herr : mdErrItems n1 = mdErrItems n2 := by
    unfold mdErrItems
    exact sortStrings_filter_perm h (fun k => by rw [hget0 k])
  have hexp0 : mdExp0 n1 = mdExp0 n2 := by
    unfold mdExp0
    exact getRule_perm hA ndA _
  have hAE : (mdAfterExp0 n1).Perm (mdAfterExp0 n2) := by
    unfold mdAfterExp0
    rw [hexp0]
    split
    · exact hA.filter _
    · exact hA
  have ndAE : (keys (mdAfterExp0 n1)).Nodup := by
    unfold mdAfterExp0
    split
    · exact keys_nodup_eraseKey _ ndA
    · exact ndA
  have hAP : (mdAfterPro n1).Perm (mdAfterPro n2) := hAE.filter _
  have ndAP : (keys (mdAfterPro n1)).Nodup := keys_nodup_filter _ ndAE
  have hAT : (mdAfterTra n1).Perm (mdAfterTra n2) := hAP.filter _
  have ndAT : (keys (mdAfterTra n1)).Nodup := keys_nodup_filter _ ndAP
  have hgetAT := getRule_perm hAT ndAT
  have hidx : mdIdxItems n1 = mdIdxItems n2 := by
    unfold mdIdxItems
    exact sortStrings_filter_perm hAT (fun k => rfl)
  have hheu : mdHeuItems n1 = mdHeuItems n2 := by
    unfold mdHeuItems
    exact sortStrings_filter_perm hAT (fun k => rfl)
  have hstepIdx : ∀ sc k, mdScoreStepIdx (mdAfterTra n1) sc k
      = mdScoreStepIdx (mdAfterTra n2) sc k := by
    intro sc k
    unfold mdScoreStepIdx
    rw [hgetAT k]
  unfold mdScore mdScoreAfterErr
  rw [herr, hidx, hheu]
  rw [foldl_congr_mem (fun b a _ => hstepIdx b a)]
  apply foldl_congr_mem
  intro b a _
  unfold mdScoreStepHeu
  rw [hstepIdx b a]

theorem mdRenderBuf_perm (ext : Externals) (cfg : Config)
    (format sql id fp : String) {n1 n2 : List (String × Rule)}
    (h : n1.Perm n2) (nd : (keys n1).Nodup) :
    (mdRender ext cfg format sql id fp n1).buf
      = (mdRender ext cfg format sql id fp n2).buf := by
  have hA : (mdAfterErr n1).Perm (mdAfterErr n2) := h.filter _
  have ndA : (keys (mdAfterErr n1)).Nodup := keys_nodup_filter _ nd
  have hget0 := getRule_perm h nd
  have herr : mdErrItems n1 = mdErrItems n2 := by
    unfold mdErrItems
    exact sortStrings_filter_perm h (fun k => by rw [hget0 k])
  have hexp0 : mdExp0 n1 = mdExp0 n2 := by
    unfold mdExp0
    exact getRule_perm hA ndA _
  have hAE : (mdAfterExp0 n1).Perm (mdAfterExp0 n2) := by
    unfold mdAfterExp0
    rw [hexp0]
    split
    · exact hA.filter _
    · exact hA
  have ndAE : (keys (mdAfterExp0 n1)).Nodup := by
    unfold mdAfterExp0
    split
    · exact keys_nodup_eraseKey _ ndA
    · exact ndA
  have hgetAE := getRule_perm hAE ndAE
  have hexp : mdExpItems n1 = mdExpItems n2 := by
    unfold mdExpItems
    exact sortStrings_filter_perm hAE (fun k => rfl)
  have hpro : mdProItems n1 = mdProItems n2 := by
    unfold mdProItems
    exact sortStrings_filter_perm hAE (fun k => rfl)
  have hAP : (mdAfterPro n1).Perm (mdAfterPro n2) := hAE.filter _
  have ndAP : (keys (mdAfterPro n1)).Nodup := keys_nodup_filter _ ndAE
  have hgetAP := getRule_perm hAP ndAP
  have htra : mdTraItems n1 = mdTraItems n2 := by
    unfold mdTraItems
    exact sortStrings_filter_perm hAP (fun k => rfl)
  have hAT : (mdAfterTra n1).Perm (mdAfterTra n2) := hAP.filter _
  have ndAT : (keys (mdAfterTra n1)).Nodup := keys_nodup_filter _ ndAP
  have hgetAT := getRule_perm hAT ndAT
  have hidx : mdIdxItems n1 = mdIdxItems n2 := by
    unfold mdIdxItems
    exact sortStrings_filter_perm hAT (fun k => rfl)
  have hheu : mdHeuItems n1 = mdHeuItems n2 := by
    unfold mdHeuItems
    exact sortStrings_filter_perm hAT (fun k => rfl)
  have eHeader : mdHeader ext cfg format sql id fp n1
      = mdHeader ext cfg format sql id fp n2 := by
    unfold mdHeader
    rw [h.length_eq]
  have eErr : mdBufErr n1 = mdBufErr n2 := by
    unfold mdBufErr
    rw [herr]
    exact congrArg _ (List.map_congr_left (fun k _ => by rw [hget0 k]))
  have eExp0 : mdBufExp0 n1 = mdBufExp0 n2 := by
    unfold mdBufExp0
    rw [hexp0]
  have eExp : mdBufExp n1 = mdBufExp n2 := by
    unfold mdBufExp
    rw [hexp]
    exact congrArg List.flatten
      (List.map_congr_left (fun k _ => by rw [hgetAE k]))
  have ePro : mdBufPro n1 = mdBufPro n2 := by
    unfold mdBufPro
    rw [hpro]
    exact congrArg _ (List.map_congr_left (fun k _ => by rw [hgetAE k]))
  have eTra : mdBufTra n1 = mdBufTra n2 := by
    unfold mdBufTra
    rw [htra]
    exact congrArg _ (List.map_congr_left (fun k _ => by rw [hgetAP k]))
  have eIdx : mdBufIdx ext format n1 = mdBufIdx ext format n2 := by
    unfold mdBufIdx
    rw [hidx]
    exact congrArg List.flatten
      (List.map_congr_left (fun k _ => by rw [hgetAT k]))
  have eHeu : mdBufHeu ext n1 = mdBufHeu ext n2 := by
    unfold mdBufHeu
    rw [hheu]
    exact congrArg List.flatten
      (List.map_congr_left (fun k _ => by rw [hgetAT k]))
  simp only [mdRender]
  rw [eHeader, eErr, eExp0, eExp, ePro, eTra, eIdx, eHeu]

/-! The JSON document is invariant under permutation of the verdict map,
given sane severities and a set small enough not to wrap (for the `Score`
field). -/

/-- The parsed severity deduction value used by `formatJSON` (the value
`Atoi` returns, error or not). -/
def sevVal (p : String × Rule) : Int :=
  (goAtoi (trimLeftChar 'L' p.2.Severity)).1

theorem json_fold_no_err :
    ∀ (s : List (String × Rule)) (init : Int),
      (∀ p ∈ s, ¬(hasPrefixGo "ERR" p.1 = true ∧ p.2.Content ≠ "")) →
      (∀ p ∈ s, SevOK p.2) →
      -4611686018427387904 + 45 * (s.length : Int) ≤ init →
      init ≤ 9223372036854775807 →
      s.foldl jsonScoreStep init = init - 5 * (s.map sevVal).sum := by
  intro s
  induction s with
  | nil => intro init _ _ _ _; simp
  | cons hd tl ih =>
      intro init hno hsev hlo hhi
      have hlc : (((hd :: tl).length : Nat) : Int) = (tl.length : Int) + 1 := by
        simp
      have htl0 : (0 : Int) ≤ (tl.length : Int) := Int.natCast_nonneg _
      rw [hlc] at hlo
      obtain ⟨he, hv0, hv9, _, _, _⟩ := hsev hd (List.mem_cons_self _ _)
      simp only [List.foldl_cons, List.map_cons, List.sum_cons]
      have hcond : ¬((hasPrefixGo "ERR" hd.1 && hd.2.Content != "") = true) := by
        intro hcontra
        rw [Bool.and_eq_true] at hcontra
        exact hno hd (List.mem_cons_self _ _)
          ⟨hcontra.1, bne_iff_ne.mp hcontra.2⟩
      have hw1 : wrap64 ((goAtoi (trimLeftChar 'L' hd.2.Severity)).1 * 5)
          = (goAtoi (trimLeftChar 'L' hd.2.Severity)).1 * 5 :=
        wrap64_id (by omega) (by omega)
      have hw2 : wrap64 (init - (goAtoi (trimLeftChar 'L' hd.2.Severity)).1 * 5)
          = init - (goAtoi (trimLeftChar 'L' hd.2.Severity)).1 * 5 :=
        wrap64_id (by omega) (by omega)
      have hstep : jsonScoreStep init hd
          = init - (goAtoi (trimLeftChar 'L' hd.2.Severity)).1 * 5 := by
        simp only [jsonScoreStep]
        rw [if_neg hcond, hw1, hw2]
      rw [hstep, ih (init - (goAtoi (trimLeftChar 'L' hd.2.Severity)).1 * 5)
        (fun p hp => hno p (List.mem_cons_of_mem _ hp))
        (fun p hp => hsev p (List.mem_cons_of_mem _ hp))
        (by omega) (by omega)]
      have hsv : sevVal hd = (goAtoi (trimLeftChar 'L' hd.2.Severity)).1 := rfl
      rw [hsv]
      ring

theorem jsonScore_perm {s1 s2 : List (String × Rule)} (h : s1.Perm s2)
    (hsev : ∀ p ∈ s1, SevOK p.2) (hlen : s1.length ≤ 2251799813685248) :
    jsonScore s1 = jsonScore s2 := by
  have hlen2 : s2.length ≤ 2251799813685248 := by
    rw [← h.length_eq]
    exact hlen
  by_cases hf : ∃ p ∈ s1, hasPrefixGo "ERR" p.1 = true ∧ p.2.Content ≠ ""
  · obtain ⟨p, hp, h1, h2⟩ := hf
    rw [jsonScore_eq_zero_of_err hp h1 h2 hsev hlen,
      jsonScore_eq_zero_of_err (h.mem_iff.mp hp) h1 h2
        (fun q hq => hsev q (h.mem_iff.mpr hq)) hlen2]
  · have hno : ∀ p ∈ s1, ¬(hasPrefixGo "ERR" p.1 = true ∧ p.2.Content ≠ "") :=
      fun p hp hc => hf ⟨p, hp, hc⟩
    have hno2 : ∀ p ∈ s2, ¬(hasPrefixGo "ERR" p.1 = true ∧ p.2.Content ≠ "") :=
      fun p hp hc => hf ⟨p, h.mem_iff.mpr hp, hc⟩
    unfold jsonScore jsonScoreRaw
    rw [json_fold_no_err s1 100 hno hsev (by omega) (by norm_num),
      json_fold_no_err s2 100 hno2 (fun q hq => hsev q (h.mem_iff.mpr hq))
        (by omega) (by norm_num),
      (h.map sevVal).sum_eq]

theorem mergeConflict_length_le (table : List (String × String))
    (s : List (String × Rule)) :
    (MergeConflictHeuristicRules table s).length ≤ s.length := by
  unfold MergeConflictHeuristicRules
  exact List.length_filter_le _ _

theorem normalize_length_le (cfg : Config) (s : List (String × Rule)) :
    (normalizeSuggest cfg s).length ≤ s.length + 1 := by
  simp only [normalizeSuggest]
  have hgen : ∀ t : List (String × Rule),
      ((if ignoreOKFlag cfg = true ∨ 1 < t.length then eraseKey t "OK"
        else t).filter (fun p => !(IsIgnoreRule cfg p.1))).length ≤ t.length := by
    intro t
    have h1 : (if ignoreOKFlag cfg = true ∨ 1 < t.length then eraseKey t "OK"
        else t).length ≤ t.length := by
      split
      · unfold eraseKey
        exact List.length_filter_le _ _
      · exact le_refl _
    have h2 := List.length_filter_le (fun p => !(IsIgnoreRule cfg p.1))
      (if ignoreOKFlag cfg = true ∨ 1 < t.length then eraseKey t "OK" else t)
    omega
  by_cases h0 : s.length < 1
  · rw [if_pos h0]
    have h3 := hgen [("OK", getRule (HeuristicRules cfg) "OK")]
    have h4 : ([("OK", getRule (HeuristicRules cfg) "OK")] :
        List (String × Rule)).length = 1 := rfl
    omega
  · rw [if_neg h0]
    have h3 := hgen s
    omega

theorem formatJSONDoc_perm (ext : Externals) (sql db : String)
    {n1 n2 : List (String × Rule)} (h : n1.Perm n2)
    (nd : (keys n1).Nodup) (hsev : ∀ p ∈ n1, SevOK p.2)
    (hlen : n1.length ≤ 2251799813685248) :
    formatJSONDoc ext sql db n1 = formatJSONDoc ext sql db n2 := by
  have hget := getRule_perm h nd
  have hexp : jsonExplainItems n1 = jsonExplainItems n2 := by
    unfold jsonExplainItems
    exact sortStrings_filter_perm h (fun k => rfl)
  have hidx : jsonIndexItems n1 = jsonIndexItems n2 := by
    unfold jsonIndexItems
    exact sortStrings_filter_perm h (fun k => rfl)
  have hheu : jsonHeuItems n1 = jsonHeuItems n2 := by
    unfold jsonHeuItems
    exact sortStrings_filter_perm h (fun k => by rw [hget k])
  unfold formatJSONDoc
  rw [jsonScore_perm h hsev hlen, hexp, hidx, hheu,
    List.map_congr_left (fun k _ => hget k),
    List.map_congr_left (fun k _ => hget k),
    List.map_congr_left (fun k _ => hget k)]

/-- C5 (counterexample): the "lint" output does depend on the iteration
order of the map — the same two-verdict map rendered in its two iteration
orders produces different byte strings (the "text" and default formats
iterate the map in the same unsorted way) — and so does the `Score` field
of `formatJSON` when a severity ordinal is large enough for its wrapped
deduction to land after the `ERR` forcing: the same two-verdict map gives
`6917529027641081856` in one iteration order and `0` in the other. -/
theorem C5_counterexample :
    ([("COL.001", colA), ("COL.002", colB)] : List (String × Rule)).Perm
        [("COL.002", colB), ("COL.001", colA)]
    ∧ (FormatSuggest extDummy baseConfig [] "" "" "lint"
         [[("COL.001", colA), ("COL.002", colB)]]).2
       ≠ (FormatSuggest extDummy baseConfig [] "" "" "lint"
         [[("COL.002", colB), ("COL.001", colA)]]).2
    ∧ ([("ERR.001", errR), ("COL.001", colWrap)] : List (String × Rule)).Perm
        [("COL.001", colWrap), ("ERR.001", errR)]
    ∧ jsonScore [("ERR.001", errR), ("COL.001", colWrap)]
       ≠ jsonScore [("COL.001", colWrap), ("ERR.001", errR)] := by
  refine ⟨by decide, by decide, by decide, by decide⟩

/-- C5 (amended): for a fixed merged verdict map presented in two
iteration orders (permutations with unique keys), the markdown and html
outputs of `FormatSuggest` are byte-identical, and — provided every
severity parses without `Atoi` error to a single-digit ordinal and the
set is small enough that the 64-bit deductions cannot wrap — so is the
json output; the "text", "lint" and default outputs, by contrast, follow
the map iteration order, and the json `Score` is order-dependent once a
deduction wraps (see the counterexample). -/
theorem mdRender_score_eq (ext : Externals) (cfg : Config)
    (format sql id fp : String) (s : List (String × Rule)) :
    (mdRender ext cfg format sql id fp s).score = mdScore s := rfl

theorem C5_order_independence (ext : Externals) (cfg : Config)
    (table : List (String × String)) (sql db : String)
    (s1 s2 : List (String × Rule)) (hperm : s1.Perm s2)
    (nd : (keys s1).Nodup) :
    (FormatSuggest ext cfg table sql db "markdown" [s1]).2 =
      (FormatSuggest ext cfg table sql db "markdown" [s2]).2
    ∧ (FormatSuggest ext cfg table sql db "html" [s1]).2 =
      (FormatSuggest ext cfg table sql db "html" [s2]).2
    ∧ ((∀ p ∈ s1, SevOK p.2) → s1.length ≤ 1125899906842624 →
      (FormatSuggest ext cfg table sql db "json" [s1]).2 =
        (FormatSuggest ext cfg table sql db "json" [s2]).2) := by
  have nd2 : (keys s2).Nodup := (keys_perm hperm).nodup nd
  have hm1 : mergeSuggests [s1] = s1 := mergeSuggests_singleton nd
  have hm2 : mergeSuggests [s2] = s2 := mergeSuggests_singleton nd2
  have hc : (MergeConflictHeuristicRules table s1).Perm
      (MergeConflictHeuristicRules table s2) := mergeConflict_perm table hperm
  have ndc : (keys (MergeConflictHeuristicRules table s1)).Nodup :=
    keys_nodup_filter _ nd
  have hn : (normalizeSuggest cfg (MergeConflictHeuristicRules table s1)).Perm
      (normalizeSuggest cfg (MergeConflictHeuristicRules table s2)) :=
    normalize_perm hc
  have ndn : (keys (normalizeSuggest cfg
      (MergeConflictHeuristicRules table s1))).Nodup :=
    normalize_keys_nodup ndc
  refine ⟨?_, ?_, ?_⟩
  · rw [FormatSuggest_markdown, FormatSuggest_markdown, hm1, hm2]
    rw [mdRenderBuf_perm ext cfg "markdown" sql _ _ hn ndn,
      mdRender_score_eq, mdRender_score_eq, mdScore_perm hn ndn]
  · rw [FormatSuggest_html, FormatSuggest_html, hm1, hm2]
    rw [mdRenderBuf_perm ext cfg "html" sql _ _ hn ndn,
      mdRender_score_eq, mdRender_score_eq, mdScore_perm hn ndn]
  · intro hsev hlen
    have hsevn : ∀ p ∈ normalizeSuggest cfg
        (MergeConflictHeuristicRules table s1), SevOK p.2 :=
      sevOK_mem_normalize (sevOK_mem_mergeConflict hsev)
    have hlenn : (normalizeSuggest cfg
        (MergeConflictHeuristicRules table s1)).length ≤ 2251799813685248 := by
      have h1 := normalize_length_le cfg (MergeConflictHeuristicRules table s1)
      have h2 := mergeConflict_length_le table s1
      omega
    rw [FormatSuggest_json_branch, FormatSuggest_json_branch, hm1, hm2]
    unfold formatJSON
    rw [formatJSONDoc_perm ext sql db hn ndn hsevn hlenn]

theorem C5_witness :
    (FormatSuggest extDummy baseConfig [] "q" "" "markdown"
       [[("COL.001", colA), ("COL.002", colB)]]).2 =
      (FormatSuggest extDummy baseConfig [] "q" "" "markdown"
       [[("COL.002", colB), ("COL.001", colA)]]).2
    ∧ (FormatSuggest extDummy baseConfig [] "q" "" "json"
       [[("COL.001", colA), ("COL.002", colB)]]).2 =
      (FormatSuggest extDummy baseConfig [] "q" "" "json"
       [[("COL.002", colB), ("COL.001", colA)]]).2 :=
  ⟨(C5_order_independence extDummy baseConfig [] "q" ""
      [("COL.001", colA), ("COL.002", colB)]
      [("COL.002", colB), ("COL.001", colA)] (by decide) (by decide)).1,
   (C5_order_independence extDummy baseConfig [] "q" ""
      [("COL.001", colA), ("COL.002", colB)]
      [("COL.002", colB), ("COL.001", colA)] (by decide) (by decide)).2.2
     (by decide) (by decide)⟩

theorem C4_witness : IsIgnoreRule cfgCOL "COL.001" = true :=
  (C4_ignore_gate.1 cfgCOL "COL.001").mpr
    ⟨"COL", by decide, by decide, by decide, by decide⟩

theorem C7_witness :
    InBlackList (fun _ => none) ["select 1"] "select 1" = true :=
  (C7_inBlackList (fun _ => none) ["select 1"] "select 1").mpr
    (Or.inl ⟨"select 1", List.mem_singleton.mpr rfl, rfl⟩)

end Soar
